import Mathlib

/-!
# MediaMarketplaceWeb: the HTTP layer and the list components

A shallow embedding of `src/http/fetchAndRetry.js`, `src/http/requests.js` and
`src/http/api.js`.  Promises are modelled by their settled outcome, the platform
transport by an explicit state-passing function, and every chain returns the list of
transport calls it issued, in order.  The list components of
`src/components/MoviePage.js` and `src/components/MovieGrid.js` are embedded as functions
from the value they receive to the element tree they return, or to the exception they
throw.
-/

namespace MediaMarketplace

/-! ## JavaScript values -/

/-- JavaScript values that cross the HTTP layer: parsed JSON bodies and object literals.
Numbers are restricted to integers; the model follows JavaScript on the safe integers, of
magnitude at most 2^53 (see `JSVal.safeToPrint`). -/
inductive JSVal where
  | undefined
  | null
  | bool (b : Bool)
  | num (n : Int)
  | str (s : String)
  | arr (xs : List JSVal)
  | obj (fields : List (String × JSVal))

mutual
/-- String conversion of a value. Inside an array join (`inArray`), `undefined` and
`null` contribute the empty string. -/
def JSVal.toStrIn (inArray : Bool) : JSVal → String
  | .undefined => if inArray then "" else "undefined"
  | .null => if inArray then "" else "null"
  | .bool true => "true"
  | .bool false => "false"
  | .num n => toString n
  | .str s => s
  | .arr xs => JSVal.join xs
  | .obj _ => "[object Object]"
termination_by structural v => v
/-- The comma-separated join that converts an array to a string. -/
def JSVal.join : List JSVal → String
  | [] => ""
  | x :: xs => JSVal.toStrIn true x ++ JSVal.joinTail xs
termination_by structural v => v
/-- The elements of an array join after the first, each preceded by a comma. -/
def JSVal.joinTail : List JSVal → String
  | [] => ""
  | x :: xs => "," ++ JSVal.toStrIn true x ++ JSVal.joinTail xs
termination_by structural v => v
end

/-- String conversion as performed by a template literal placeholder. -/
def JSVal.toStr (v : JSVal) : String := JSVal.toStrIn false v

mutual
/-- Whether every number that the string conversion of the value prints is a safe
integer, of magnitude at most 2^53. On these values `toStrIn` gives the string that
JavaScript gives. Greater magnitudes are outside the model: not every such integer is a
JavaScript number, and JavaScript prints them from their shortest decimal form, from
1e21 on with an exponent. -/
def JSVal.safeToPrint : JSVal → Bool
  | .undefined => true
  | .null => true
  | .bool _ => true
  | .num n => decide (n.natAbs ≤ 2 ^ 53)
  | .str _ => true
  | .arr xs => JSVal.allSafeToPrint xs
  | .obj _ => true
termination_by structural v => v
/-- The elements of an array are all safe to print. -/
def JSVal.allSafeToPrint : List JSVal → Bool
  | [] => true
  | x :: xs => JSVal.safeToPrint x && JSVal.allSafeToPrint xs
termination_by structural v => v
end

/-- Strict equality `v === n` against a number literal. -/
def JSVal.strictEqNum : JSVal → Int → Bool
  | .num m, n => decide (m = n)
  | _, _ => false

/-- An exception value: what a rejected promise carries. -/
inductive JSError where
  | typeError (message : String)
  | syntaxError (message : String)
  | networkError (message : String)
  deriving DecidableEq, Repr

/-- A settled promise. -/
inductive Settled (α : Type) where
  | fulfilled (value : α)
  | rejected (reason : JSError)

/-! ## Requests, responses and the transport -/

/-- The second argument of `fetch`: the options object. Only the keys that occur in the
sources are represented; an absent key is `none` (or no header). -/
structure RequestInit where
  method : Option String := none
  credentials : Option String := none
  headers : List (String × String) := []
  deriving DecidableEq, Repr

/-- The arguments of one `fetch` call: `fetch(url, args)`. -/
structure Request where
  url : String
  args : RequestInit := {}
  deriving DecidableEq, Repr

/-- A platform `Response`. `json` is what `response.json()` settles to: the parsed
body, or the parser's error when the body is not valid JSON. -/
structure Response where
  status : Nat
  statusText : String
  ok : Bool
  json : Except JSError JSVal

/-- What a promise returned by a `fetch` binding can be fulfilled with: a platform
response, or the empty object literal that the interceptor returns. -/
inductive FetchValue where
  | response (r : Response)
  | empty

/-- Property read `data.status`. -/
def FetchValue.status : FetchValue → JSVal
  | .response r => .num r.status
  | .empty => .undefined

/-- Property read `response.statusText`. -/
def FetchValue.statusText : FetchValue → JSVal
  | .response r => .str r.statusText
  | .empty => .undefined

/-- Truthiness of the property read `response.ok`. -/
def FetchValue.ok : FetchValue → Bool
  | .response r => r.ok
  | .empty => false

/-- One call of the platform transport: the request and how its promise settled. -/
structure Call where
  request : Request
  outcome : Settled Response

/-- The platform transport (the native `fetch`): from its state and a request it settles
one promise and moves to a new state. -/
abbrev Transport (σ : Type) := σ → Request → Settled Response × σ

/-- Anything that can be bound to the global name `fetch`. A call yields how the returned
promise settled, the new transport state and the transport calls issued, in order;
`none` stands for a promise that is still pending when the fuel runs out. -/
abbrev FetchFn (σ : Type) := σ → Request → Option (Settled FetchValue × σ × List Call)

/-- The native `fetch` as a binding: exactly one transport call. -/
def platformFetch {σ : Type} (t : Transport σ) : FetchFn σ := fun s req =>
  match t s req with
  | (.fulfilled r, s1) => some (.fulfilled (.response r), s1, [⟨req, .fulfilled r⟩])
  | (.rejected e, s1) => some (.rejected e, s1, [⟨req, .rejected e⟩])

/-! ## `fetchAndRetry.js` -/

/-- Entry `TEMP_API['401']` (lines 2-5). -/
def TEMP_API_401 : Request :=
  { url := "https://run.mocky.io/v3/7a98985c-1e59-4bfb-87dd-117307b6196c", args := {} }

/-- Entry `TEMP_API['200']` (lines 6-9). -/
def TEMP_API_200 : Request :=
  { url := "https://jsonplaceholder.typicode.com/todos/2", args := {} }

/-- Entry `TEMP_API['404']` (lines 10-16). -/
def TEMP_API_404 : Request :=
  { url := "https://jsonplaceholder.typicode.com/todos/1",
    args := { method := some "POST", credentials := some "include" } }

/-- The function assigned to the global `fetch` (lines 20-54), over the binding captured
as `originalFetch` (line 19). The recursive calls go through the global `fetch`, which is
this function itself; `fuel` bounds their nesting depth. -/
def fetch {σ : Type} (originalFetch : FetchFn σ) : Nat → FetchFn σ
  | 0 => fun _ _ => none
  | fuel + 1 => fun s req =>
    match originalFetch s req with
    | none => none
    | some (.rejected e, s1, calls1) => some (.rejected e, s1, calls1)
    | some (.fulfilled data, s1, calls1) =>
      if data.status.strictEqNum 401 then
        match originalFetch s1 TEMP_API_200 with
        | none => none
        | some (.rejected e, s2, calls2) => some (.rejected e, s2, calls1 ++ calls2)
        | some (.fulfilled response, s2, calls2) =>
          if response.status.strictEqNum 401 then
            some (.fulfilled .empty, s2, calls1 ++ calls2)
          else
            match fetch originalFetch fuel s2 TEMP_API_200 with
            | none => none
            | some (out, s3, calls3) => some (out, s3, calls1 ++ calls2 ++ calls3)
      else if data.status.strictEqNum 404 then
        match fetch originalFetch fuel s1 TEMP_API_200 with
        | none => none
        | some (out, s2, calls2) => some (out, s2, calls1 ++ calls2)
      else
        some (.fulfilled data, s1, calls1)

/-- The process-wide bindings that the modules read and write: the global name `fetch`. -/
structure Globals (σ : Type) where
  fetch : FetchFn σ

/-- The globals of the platform before any module of the repository is loaded. -/
def platformGlobals {σ : Type} (t : Transport σ) : Globals σ :=
  { fetch := platformFetch t }

/-- Evaluation of the top-level statements of `fetchAndRetry.js` on the bindings (lines
19-20): `originalFetch` captures the current global `fetch`, which is then reassigned.
`fuel` is the nesting budget of the function that gets installed. The three example
calls that the module also issues when it is loaded (lines 56-66) go through the new
binding and leave the bindings as they are; they are not part of this function. -/
def loadFetchAndRetry {σ : Type} (fuel : Nat) (g : Globals σ) : Globals σ :=
  let originalFetch := g.fetch
  { g with fetch := MediaMarketplace.fetch originalFetch fuel }

/-! ## `requests.js` -/

/-- Constant `apiBaseUrl` (line 4). -/
def apiBaseUrl : String := "http://localhost:8080"

/-- The `settings` object of `getData` (lines 7-13). -/
def settings : RequestInit :=
  { method := some "GET",
    headers := [("Accept", "application/json"), ("Content-Type", "application/json")] }

/-- Function `getData` of `requests.js` (lines 6-37). The value is `some v` for a
response and `none` for `undefined`, which is what the function returns after its
`catch` block has swallowed a rejection of the global `fetch`. -/
def getData {σ : Type} (g : Globals σ) (uri : String) (s : σ) :
    Option (Settled (Option FetchValue) × σ × List Call) :=
  match g.fetch s { url := apiBaseUrl ++ uri, args := settings } with
  | none => none
  | some (.fulfilled response, s1, calls) => some (.fulfilled (some response), s1, calls)
  | some (.rejected _, s1, calls) => some (.fulfilled none, s1, calls)

/-! ## `api.js` -/

/-- Method call `response.json()`. -/
def FetchValue.json : FetchValue → Settled JSVal
  | .response r =>
    match r.json with
    | .ok j => .fulfilled j
    | .error e => .rejected e
  | .empty => .rejected (.typeError "response.json is not a function")

/-- The object literal returned for a response that is not ok (e.g. lines 8-12). -/
def errorEnvelope (response : FetchValue) : JSVal :=
  .obj [("status", response.status),
        ("isError", .bool true),
        ("error", .str ("Request failed with status " ++ response.status.toStr ++ ": "
                          ++ response.statusText.toStr))]

/-- The statements that follow `await requests.getData(...)` in each of the five catalog
functions; they are textually the same in all five (lines 7-19, 26-37, 44-55, 62-73,
80-91). Reading `response.ok` of `undefined` throws a `TypeError`. -/
def afterGetData : Option FetchValue → Settled JSVal
  | none => .rejected (.typeError "Cannot read properties of undefined (reading 'ok')")
  | some response =>
    if !response.ok then .fulfilled (errorEnvelope response)
    else response.json

/-- A catalog function: `getData` on its path, then the shared statements. -/
def catalog {σ : Type} (g : Globals σ) (uri : String) (s : σ) :
    Option (Settled JSVal × σ × List Call) :=
  match getData g uri s with
  | none => none
  | some (.rejected e, s1, calls) => some (.rejected e, s1, calls)
  | some (.fulfilled response, s1, calls) => some (afterGetData response, s1, calls)

/-- Function `getAllMovies` (lines 3-20). -/
def getAllMovies {σ : Type} (g : Globals σ) (s : σ) :
    Option (Settled JSVal × σ × List Call) :=
  catalog g "/api/main/movies/" s

/-- Function `getMovie` (lines 22-38). -/
def getMovie {σ : Type} (g : Globals σ) (id : JSVal) (s : σ) :
    Option (Settled JSVal × σ × List Call) :=
  catalog g ("/api/main/movies/" ++ id.toStr) s

/-- Function `getActorsMovie` (lines 40-56). -/
def getActorsMovie {σ : Type} (g : Globals σ) (id : JSVal) (s : σ) :
    Option (Settled JSVal × σ × List Call) :=
  catalog g ("/api/main/actors?movieId=" ++ id.toStr) s

/-- Function `getDirectorsMovie` (lines 58-74). -/
def getDirectorsMovie {σ : Type} (g : Globals σ) (id : JSVal) (s : σ) :
    Option (Settled JSVal × σ × List Call) :=
  catalog g ("/api/main/directors?movieId=" ++ id.toStr) s

/-- A default parameter value: it replaces an argument that is `undefined`. -/
def JSVal.orDefault : JSVal → JSVal → JSVal
  | .undefined, d => d
  | v, _ => v

/-- The path requested by `getReviewsOfMovie` (line 77), defaults applied (line 76). -/
def reviewsUri (id : JSVal) (page : JSVal := .undefined) (size : JSVal := .undefined) :
    String :=
  let page := page.orDefault (.num 0)
  let size := size.orDefault (.num 50)
  "/api/main/movie-reviews/reviews/" ++ id.toStr ++ "?number=" ++ page.toStr
    ++ "&size=" ++ size.toStr

/-- Function `getReviewsOfMovie` (lines 76-92). -/
def getReviewsOfMovie {σ : Type} (g : Globals σ) (id : JSVal)
    (page : JSVal := .undefined) (size : JSVal := .undefined) (s : σ) :
    Option (Settled JSVal × σ × List Call) :=
  catalog g (reviewsUri id page size) s

/-! ## The transport calls of an unfinished chain -/

/-- The transport calls that a chain of the intercepted `fetch` (lines 20-54) over the
platform transport has issued once `fuel` levels of nesting are used up, whether or not
the chain has settled by then. It follows the same branches as `fetch`. -/
def issued {σ : Type} (t : Transport σ) : Nat → σ → Request → List Call
  | 0 => fun _ _ => []
  | fuel + 1 => fun s req =>
    match t s req with
    | (.rejected e, _) => [⟨req, .rejected e⟩]
    | (.fulfilled data, s1) =>
      if data.status = 401 then
        match t s1 TEMP_API_200 with
        | (.rejected e, _) => [⟨req, .fulfilled data⟩, ⟨TEMP_API_200, .rejected e⟩]
        | (.fulfilled response, s2) =>
          if response.status = 401 then
            [⟨req, .fulfilled data⟩, ⟨TEMP_API_200, .fulfilled response⟩]
          else
            ⟨req, .fulfilled data⟩ :: ⟨TEMP_API_200, .fulfilled response⟩
              :: issued t fuel s2 TEMP_API_200
      else if data.status = 404 then
        ⟨req, .fulfilled data⟩ :: issued t fuel s1 TEMP_API_200
      else
        [⟨req, .fulfilled data⟩]

/-- A transport without state whose outcome is a function of the request alone. -/
def deterministic (f : Request → Settled Response) : Transport Unit :=
  fun _ req => (f req, ())

/-! ## JavaScript operations used by the components -/

/-- Conversion to boolean (truthiness). -/
def JSVal.truthy : JSVal → Bool
  | .undefined => false
  | .null => false
  | .bool b => b
  | .num n => decide (n ≠ 0)
  | .str s => decide (s ≠ "")
  | .arr _ => true
  | .obj _ => true

/-- The `length` of a string: its number of UTF-16 code units. -/
def utf16Length (s : String) : Nat :=
  s.toList.foldl (fun n c => n + (if c.val.toNat < 65536 then 1 else 2)) 0

/-- Property read `v.key` on a value that is neither `undefined` nor `null`, for the data
keys that the sources read. Objects are looked up by key (keys are taken to be unique),
arrays and strings have `length`, everything else reads as `undefined`. Inherited
methods are not values of this model; the one the sources call, `map`, is `callMap`. -/
def JSVal.prop (v : JSVal) (key : String) : JSVal :=
  match v with
  | .obj fields => (fields.lookup key).getD .undefined
  | .arr xs => if key = "length" then .num xs.length else .undefined
  | .str s => if key = "length" then .num (utf16Length s) else .undefined
  | _ => .undefined

/-- Property read `v.key`: a `TypeError` on `undefined` and on `null`. The text of the
error names only the value, not the key. -/
def JSVal.get (v : JSVal) (key : String) : Except JSError JSVal :=
  match v with
  | .undefined => .error (.typeError "Cannot read properties of undefined")
  | .null => .error (.typeError "Cannot read properties of null")
  | v => .ok (v.prop key)

/-- Optional chaining `v?.key`. -/
def JSVal.optGet (v : JSVal) (key : String) : JSVal :=
  match v with
  | .undefined => .undefined
  | .null => .undefined
  | v => v.prop key

/-- The comparison `v > 0`. `strGtZero` is the platform's answer for a string operand
(its conversion to a number compared with 0). An array is compared through its string
conversion; a plain object converts to `NaN`. -/
def JSVal.gtZero (strGtZero : String → Bool) : JSVal → Bool
  | .undefined => false
  | .null => false
  | .bool b => b
  | .num n => decide (0 < n)
  | .str s => strGtZero s
  | .arr xs => strGtZero (JSVal.arr xs).toStr
  | .obj _ => false

/-- What a component returns: a React element, a plain value used as a child (text,
`null`, `undefined`), or an array of nodes. Props that hold functions are left out of
`props`. -/
inductive Node where
  | element (type : String) (key : JSVal) (props : List (String × JSVal))
      (children : List Node)
  | value (v : JSVal)
  | list (items : List Node)

/-- The callback of `Array.prototype.map` applied to the elements from index `i` on, in
order; the first exception ends the call. -/
def mapFrom (f : JSVal → Nat → Except JSError Node) :
    Nat → List JSVal → Except JSError (List Node)
  | _, [] => .ok []
  | i, x :: xs =>
    match f x i with
    | .error e => .error e
    | .ok n =>
      match mapFrom f (i + 1) xs with
      | .error e => .error e
      | .ok ns => .ok (n :: ns)

/-- Method call `v.map(f)`: arrays are mapped; reading `map` of `undefined` or `null`
throws, and on every other value `map` is not a function. -/
def JSVal.callMap (v : JSVal) (f : JSVal → Nat → Except JSError Node) :
    Except JSError (List Node) :=
  match v with
  | .arr xs => mapFrom f 0 xs
  | .undefined => .error (.typeError "Cannot read properties of undefined")
  | .null => .error (.typeError "Cannot read properties of null")
  | _ => .error (.typeError "map is not a function")

/-- Optional call `v?.map(f)`; `none` is `undefined`. -/
def JSVal.optCallMap (v : JSVal) (f : JSVal → Nat → Except JSError Node) :
    Except JSError (Option (List Node)) :=
  match v with
  | .undefined => .ok none
  | .null => .ok none
  | v =>
    match v.callMap f with
    | .error e => .error e
    | .ok ns => .ok (some ns)

/-- An expression child `{x}` where `x` is the result of an optional `map` call. -/
def Node.ofOptList : Option (List Node) → Node
  | none => .value .undefined
  | some ns => .list ns

/-! ## `MoviePage.js` -/

/-- The element built for one review (lines 72-76). -/
def reviewNode (review : JSVal) (_index : Nat) : Except JSError Node :=
  match review.get "id", review.get "title", review.get "content", review.get "rating" with
  | .ok id, .ok title, .ok content, .ok rating =>
    .ok (.element "div" id [("className", .str "review")]
      [.element "h3" .undefined [] [.value title],
       .element "p" .undefined [] [.value content],
       .element "p" .undefined []
         [.element "strong" .undefined [] [.value (.str "Rating:")],
          .value (.str " "), .value rating, .value (.str "/100")]])
  | .error e, _, _, _ => .error e
  | _, .error e, _, _ => .error e
  | _, _, .error e, _ => .error e
  | _, _, _, .error e => .error e

/-- Component `ReviewsList` (lines 67-81), on the value its promise was fulfilled
with. -/
def ReviewsList (strGtZero : String → Bool) (reviews : JSVal) : Except JSError Node :=
  if ((reviews.optGet "content").optGet "length").gtZero strGtZero then
    match (reviews.optGet "content").optCallMap reviewNode with
    | .error e => .error e
    | .ok ns => .ok (Node.ofOptList ns)
  else
    .ok (.element "p" .undefined [] [.value (.str "No reviews yet.")])

/-- Component `DirectorList` (lines 83-93), on the value its promise was fulfilled
with. -/
def DirectorList (directors : JSVal) : Except JSError Node :=
  match directors.optCallMap
      (fun director _ => .ok (.element "DirectorCell" .undefined
        [("castMember", director)] [])) with
  | .error e => .error e
  | .ok ns => .ok (.element "ol" .undefined [] [Node.ofOptList ns])

/-- Component `ActorList` (lines 95-105), on the value its promise was fulfilled with. -/
def ActorList (actors : JSVal) : Except JSError Node :=
  match actors.optCallMap
      (fun actor _ => .ok (.element "ActorCell" .undefined [("castMember", actor)] [])) with
  | .error e => .error e
  | .ok ns => .ok (.element "ol" .undefined [] [Node.ofOptList ns])

/-! ## `MovieGrid.js` -/

/-- The callback of the `map` call of `MovieGrid` (lines 21-26). -/
def movieGridEntry (item : JSVal) (index : Nat) : Except JSError Node :=
  match item.get "movie" with
  | .error e => .error e
  | .ok m =>
    let movie := if m.truthy then m else item
    if !(movie.optGet "name").truthy || !(movie.optGet "posterPath").truthy then
      .ok (.value .null)
    else
      .ok (.element "Movie" (.num index) [("movie", movie)] [])

/-- The `style` prop of the grid (lines 14-19). -/
def movieGridStyle : JSVal :=
  .obj [("display", .str "grid"),
        ("gridTemplateColumns", .str "repeat(auto-fill, minmax(180px, 1fr))"),
        ("gap", .str "16px"), ("padding", .str "20px")]

/-- Component `MovieGrid` (lines 5-29), on its `movies` prop. -/
def MovieGrid (movies : JSVal) : Except JSError Node :=
  match movies.callMap movieGridEntry with
  | .error e => .error e
  | .ok entries => .ok (.element "div" .undefined [("style", movieGridStyle)] [.list entries])

/-- The movie that the specification attaches to an item: `item.movie` when that is
truthy, the item itself otherwise. -/
def resolvedMovie (item : JSVal) : JSVal :=
  if (item.prop "movie").truthy then item.prop "movie" else item

/-! ## Stub transports used to evaluate the definitions -/

/-- A response with the given status and an empty JSON object as body; `ok` is set as
the platform does, from the status range 200-299. -/
def stubResponse (status : Nat) (statusText : String := "") : Response :=
  { status := status, statusText := statusText,
    ok := decide (200 ≤ status ∧ status ≤ 299), json := .ok (.obj []) }

/-- A scripted transport: its state is the list of outcomes still to be delivered, one
per call, whatever the request; with the script used up, the call fails at the network
level. -/
def scripted : Transport (List (Settled Response))
  | [], _ => (.rejected (.networkError "Failed to fetch"), [])
  | out :: rest, _ => (out, rest)

/-- A stateless transport that answers every request with the same status. -/
def always (status : Nat) : Transport Unit :=
  fun _ _ => (.fulfilled (stubResponse status), ())

/-- The request of the examples of the specification: `/x` with no options. -/
def reqX : Request := { url := "/x" }

/-- A stateless transport that answers 401 to `/x` and 200 to every other URL. -/
def unauthorizedX : Transport Unit := fun _ req =>
  if req.url = "/x" then (.fulfilled (stubResponse 401 "Unauthorized"), ())
  else (.fulfilled (stubResponse 200 "OK"), ())

/-- The requests of the transport calls a chain issued, in order. -/
def requestsOf {α σ : Type} : Option (α × σ × List Call) → Option (List Request)
  | none => none
  | some (_, _, calls) => some (calls.map Call.request)

/-- A 200 response whose body is not valid JSON: `response.json()` rejects. -/
def brokenJsonResponse : Response :=
  { status := 200, statusText := "OK", ok := true,
    json := .error (.syntaxError "Unexpected token < in JSON at position 0") }

/-- The query parameters of a URL, as name and value pairs: the text after `?`, split
at `&` and then at `=`. -/
def queryParams (url : String) : List (String × String) :=
  match url.toList.splitOn '?' with
  | [_, query] =>
    (query.splitOn '&').map fun kv =>
      match kv.splitOn '=' with
      | [k, v] => (String.mk k, String.mk v)
      | _ => (String.mk kv, "")
  | _ => []

/-- The answers of a transport without state: 401 to `/x`, 200 to every other URL. -/
def answerByUrl (req : Request) : Settled Response :=
  if req.url = "/x" then .fulfilled (stubResponse 401 "Unauthorized")
  else .fulfilled (stubResponse 200 "OK")

/-- A script that exercises all three later calls: 401, then 200 to the probe, then 404
to the replay, then 200. -/
def longScript : List (Settled Response) :=
  [.fulfilled (stubResponse 401 "first"), .fulfilled (stubResponse 200 "probe"),
   .fulfilled (stubResponse 404 "replay"), .fulfilled (stubResponse 200 "last")]

/-- The text sent for an argument that has a default: the text of the default when the
argument is omitted (`undefined`), the string conversion of the argument otherwise. -/
def JSVal.toStrOr (v : JSVal) (defaultText : String) : String :=
  match v with
  | .undefined => defaultText
  | given => given.toStr

/-! ## Unfolding lemmas -/

theorem strictEqNum_status (r : Response) (n : Nat) :
    (FetchValue.response r).status.strictEqNum (n : Int) = decide (r.status = n) := by
  simp [FetchValue.status, JSVal.strictEqNum]

theorem fetch_first_rejected {σ : Type} (t : Transport σ) (s s1 : σ) (req : Request)
    (e : JSError) (fuel : Nat) (hfirst : t s req = (.rejected e, s1)) :
    fetch (platformFetch t) (fuel + 1) s req
      = some (.rejected e, s1, [⟨req, .rejected e⟩]) := by
  simp [fetch, platformFetch, hfirst]

theorem fetch_first_other {σ : Type} (t : Transport σ) (s s1 : σ) (req : Request)
    (r : Response) (fuel : Nat) (hfirst : t s req = (.fulfilled r, s1))
    (h401 : r.status ≠ 401) (h404 : r.status ≠ 404) :
    fetch (platformFetch t) (fuel + 1) s req
      = some (.fulfilled (.response r), s1, [⟨req, .fulfilled r⟩]) := by
  have e401 := strictEqNum_status r 401
  have e404 := strictEqNum_status r 404
  simp only [Nat.cast_ofNat] at e401 e404
  simp [fetch, platformFetch, hfirst, e401, e404, h401, h404]

theorem fetch_first_404 {σ : Type} (t : Transport σ) (s s1 : σ) (req : Request)
    (r : Response) (fuel : Nat) (hfirst : t s req = (.fulfilled r, s1))
    (h404 : r.status = 404) :
    fetch (platformFetch t) (fuel + 1) s req
      = (fetch (platformFetch t) fuel s1 TEMP_API_200).map
          (fun x => (x.1, x.2.1, ⟨req, .fulfilled r⟩ :: x.2.2)) := by
  have e401 := strictEqNum_status r 401
  have e404 := strictEqNum_status r 404
  simp only [Nat.cast_ofNat] at e401 e404
  simp only [fetch, platformFetch, hfirst, e401, e404, h404]
  cases fetch (platformFetch t) fuel s1 TEMP_API_200 <;> simp

theorem fetch_probe_rejected {σ : Type} (t : Transport σ) (s s1 s2 : σ) (req : Request)
    (r1 : Response) (e : JSError) (fuel : Nat)
    (hfirst : t s req = (.fulfilled r1, s1)) (h1 : r1.status = 401)
    (hprobe : t s1 TEMP_API_200 = (.rejected e, s2)) :
    fetch (platformFetch t) (fuel + 1) s req
      = some (.rejected e, s2, [⟨req, .fulfilled r1⟩, ⟨TEMP_API_200, .rejected e⟩]) := by
  have e1 := strictEqNum_status r1 401
  simp only [Nat.cast_ofNat] at e1
  simp [fetch, platformFetch, hfirst, hprobe, e1, h1]

theorem fetch_probe_401 {σ : Type} (t : Transport σ) (s s1 s2 : σ) (req : Request)
    (r1 r2 : Response) (fuel : Nat)
    (hfirst : t s req = (.fulfilled r1, s1)) (h1 : r1.status = 401)
    (hprobe : t s1 TEMP_API_200 = (.fulfilled r2, s2)) (h2 : r2.status = 401) :
    fetch (platformFetch t) (fuel + 1) s req
      = some (.fulfilled .empty, s2,
          [⟨req, .fulfilled r1⟩, ⟨TEMP_API_200, .fulfilled r2⟩]) := by
  have e1 := strictEqNum_status r1 401
  have e2 := strictEqNum_status r2 401
  simp only [Nat.cast_ofNat] at e1 e2
  simp [fetch, platformFetch, hfirst, hprobe, e1, e2, h1, h2]

theorem fetch_probe_other {σ : Type} (t : Transport σ) (s s1 s2 : σ) (req : Request)
    (r1 r2 : Response) (fuel : Nat)
    (hfirst : t s req = (.fulfilled r1, s1)) (h1 : r1.status = 401)
    (hprobe : t s1 TEMP_API_200 = (.fulfilled r2, s2)) (h2 : r2.status ≠ 401) :
    fetch (platformFetch t) (fuel + 1) s req
      = (fetch (platformFetch t) fuel s2 TEMP_API_200).map
          (fun x => (x.1, x.2.1,
            ⟨req, .fulfilled r1⟩ :: ⟨TEMP_API_200, .fulfilled r2⟩ :: x.2.2)) := by
  have e1 := strictEqNum_status r1 401
  have e2 := strictEqNum_status r2 401
  simp only [Nat.cast_ofNat] at e1 e2
  simp only [fetch, platformFetch, hfirst, hprobe, e1, e2, h1, h2]
  cases fetch (platformFetch t) fuel s2 TEMP_API_200 <;> simp [h2]

theorem fetch_always_404 :
    ∀ (fuel : Nat) (req : Request), fetch (platformFetch (always 404)) fuel () req = none := by
  intro fuel
  induction fuel with
  | zero => intro req; rfl
  | succ n ih =>
    intro req
    rw [fetch_first_404 (always 404) () () req (stubResponse 404) n rfl rfl, ih]
    rfl

theorem fetch_calls_shape {σ : Type} (t : Transport σ) :
    ∀ (fuel : Nat) (s : σ) (req : Request) (out : Settled FetchValue) (s' : σ)
      (calls : List Call),
      fetch (platformFetch t) fuel s req = some (out, s', calls) →
      ∃ pre c, calls = pre ++ [c] ∧ (∀ p ∈ pre, ∃ r, p.outcome = .fulfilled r)
        ∧ ∀ e, c.outcome = .rejected e ↔ out = .rejected e := by
  intro fuel
  induction fuel with
  | zero => intro s req out s' calls h; simp [fetch] at h
  | succ n ih =>
    intro s req out s' calls h
    rcases hfirst : t s req with ⟨o1, s1⟩
    cases o1 with
    | rejected e =>
      rw [fetch_first_rejected t s s1 req e n hfirst] at h
      simp only [Option.some.injEq, Prod.mk.injEq] at h
      obtain ⟨rfl, rfl, rfl⟩ := h
      exact ⟨[], _, rfl, by simp, by simp⟩
    | fulfilled r1 =>
      by_cases h401 : r1.status = 401
      · rcases hprobe : t s1 TEMP_API_200 with ⟨o2, s2⟩
        cases o2 with
        | rejected e =>
          rw [fetch_probe_rejected t s s1 s2 req r1 e n hfirst h401 hprobe] at h
          simp only [Option.some.injEq, Prod.mk.injEq] at h
          obtain ⟨rfl, rfl, rfl⟩ := h
          exact ⟨[⟨req, .fulfilled r1⟩], _, rfl, by simp, by simp⟩
        | fulfilled r2 =>
          by_cases h2 : r2.status = 401
          · rw [fetch_probe_401 t s s1 s2 req r1 r2 n hfirst h401 hprobe h2] at h
            simp only [Option.some.injEq, Prod.mk.injEq] at h
            obtain ⟨rfl, rfl, rfl⟩ := h
            exact ⟨[⟨req, .fulfilled r1⟩], _, rfl, by simp, by simp⟩
          · rw [fetch_probe_other t s s1 s2 req r1 r2 n hfirst h401 hprobe h2] at h
            cases hn : fetch (platformFetch t) n s2 TEMP_API_200 with
            | none => simp [hn] at h
            | some x =>
              obtain ⟨o, s3, calls3⟩ := x
              simp only [hn, Option.map_some', Option.some.injEq, Prod.mk.injEq] at h
              obtain ⟨rfl, rfl, rfl⟩ := h
              obtain ⟨pre, c, hc, hpre, hlast⟩ := ih s2 TEMP_API_200 o s3 calls3 hn
              refine ⟨⟨req, .fulfilled r1⟩ :: ⟨TEMP_API_200, .fulfilled r2⟩ :: pre, c,
                by simp [hc], ?_, hlast⟩
              intro p hp
              simp only [List.mem_cons] at hp
              rcases hp with rfl | rfl | hp
              · exact ⟨r1, rfl⟩
              · exact ⟨r2, rfl⟩
              · exact hpre p hp
      · by_cases h404 : r1.status = 404
        · rw [fetch_first_404 t s s1 req r1 n hfirst h404] at h
          cases hn : fetch (platformFetch t) n s1 TEMP_API_200 with
          | none => simp [hn] at h
          | some x =>
            obtain ⟨o, s2, calls2⟩ := x
            simp only [hn, Option.map_some', Option.some.injEq, Prod.mk.injEq] at h
            obtain ⟨rfl, rfl, rfl⟩ := h
            obtain ⟨pre, c, hc, hpre, hlast⟩ := ih s1 TEMP_API_200 o s2 calls2 hn
            refine ⟨⟨req, .fulfilled r1⟩ :: pre, c, by simp [hc], ?_, hlast⟩
            intro p hp
            simp only [List.mem_cons] at hp
            rcases hp with rfl | hp
            · exact ⟨r1, rfl⟩
            · exact hpre p hp
        · rw [fetch_first_other t s s1 req r1 n hfirst h401 h404] at h
          simp only [Option.some.injEq, Prod.mk.injEq] at h
          obtain ⟨rfl, rfl, rfl⟩ := h
          exact ⟨[], _, rfl, by simp, by simp⟩

theorem catalog_of_delivered {σ : Type} (g : Globals σ) (uri : String) (s s1 : σ)
    (v : FetchValue) (calls : List Call)
    (hdelivered : g.fetch s { url := apiBaseUrl ++ uri, args := settings }
      = some (.fulfilled v, s1, calls)) :
    catalog g uri s = some (afterGetData (some v), s1, calls) := by
  simp [catalog, getData, hdelivered]

theorem catalog_of_failed {σ : Type} (g : Globals σ) (uri : String) (s s1 : σ)
    (e : JSError) (calls : List Call)
    (hfailed : g.fetch s { url := apiBaseUrl ++ uri, args := settings }
      = some (.rejected e, s1, calls)) :
    catalog g uri s = some (afterGetData none, s1, calls) := by
  simp [catalog, getData, hfailed]

theorem toStr_status (r : Response) :
    (FetchValue.response r).status.toStr = toString r.status := rfl

theorem catalog_functions_eq {σ : Type} (g : Globals σ) (s : σ) (uri : String)
    (result : Option (Settled JSVal × σ × List Call))
    (hfun : (uri = "/api/main/movies/" ∧ result = getAllMovies g s)
      ∨ (∃ id, uri = "/api/main/movies/" ++ id.toStr ∧ result = getMovie g id s)
      ∨ (∃ id, uri = "/api/main/actors?movieId=" ++ id.toStr
          ∧ result = getActorsMovie g id s)
      ∨ (∃ id, uri = "/api/main/directors?movieId=" ++ id.toStr
          ∧ result = getDirectorsMovie g id s)
      ∨ (∃ id page size, uri = reviewsUri id page size
          ∧ result = getReviewsOfMovie g id page size s)) :
    result = catalog g uri s := by
  rcases hfun with ⟨rfl, rfl⟩ | ⟨id, rfl, rfl⟩ | ⟨id, rfl, rfl⟩ | ⟨id, rfl, rfl⟩
    | ⟨id, page, size, rfl, rfl⟩ <;> rfl

theorem requestsOf_catalog_platform {σ : Type} (t : Transport σ) (uri : String) (s : σ) :
    requestsOf (catalog (platformGlobals t) uri s)
      = some [{ url := apiBaseUrl ++ uri, args := settings }] := by
  simp only [catalog, getData, platformGlobals, platformFetch]
  rcases t s { url := apiBaseUrl ++ uri, args := settings } with ⟨o, s1⟩
  cases o <;> rfl

theorem fetch_fuel_succ {σ : Type} (t : Transport σ) :
    ∀ (fuel : Nat) (s : σ) (req : Request) (x : Settled FetchValue × σ × List Call),
      fetch (platformFetch t) fuel s req = some x →
      fetch (platformFetch t) (fuel + 1) s req = some x := by
  intro fuel
  induction fuel with
  | zero => intro s req x h; simp [fetch] at h
  | succ n ih =>
    intro s req x h
    rcases hfirst : t s req with ⟨o1, s1⟩
    cases o1 with
    | rejected e =>
      rw [fetch_first_rejected t s s1 req e n hfirst] at h
      rw [fetch_first_rejected t s s1 req e (n + 1) hfirst, h]
    | fulfilled r1 =>
      by_cases h401 : r1.status = 401
      · rcases hprobe : t s1 TEMP_API_200 with ⟨o2, s2⟩
        cases o2 with
        | rejected e =>
          rw [fetch_probe_rejected t s s1 s2 req r1 e n hfirst h401 hprobe] at h
          rw [fetch_probe_rejected t s s1 s2 req r1 e (n + 1) hfirst h401 hprobe, h]
        | fulfilled r2 =>
          by_cases h2 : r2.status = 401
          · rw [fetch_probe_401 t s s1 s2 req r1 r2 n hfirst h401 hprobe h2] at h
            rw [fetch_probe_401 t s s1 s2 req r1 r2 (n + 1) hfirst h401 hprobe h2, h]
          · rw [fetch_probe_other t s s1 s2 req r1 r2 n hfirst h401 hprobe h2] at h
            rw [fetch_probe_other t s s1 s2 req r1 r2 (n + 1) hfirst h401 hprobe h2]
            cases hn : fetch (platformFetch t) n s2 TEMP_API_200 with
            | none => simp [hn] at h
            | some y => rw [ih s2 TEMP_API_200 y hn, ← h, hn]
      · by_cases h404 : r1.status = 404
        · rw [fetch_first_404 t s s1 req r1 n hfirst h404] at h
          rw [fetch_first_404 t s s1 req r1 (n + 1) hfirst h404]
          cases hn : fetch (platformFetch t) n s1 TEMP_API_200 with
          | none => simp [hn] at h
          | some y => rw [ih s1 TEMP_API_200 y hn, ← h, hn]
        · rw [fetch_first_other t s s1 req r1 n hfirst h401 h404] at h
          rw [fetch_first_other t s s1 req r1 (n + 1) hfirst h401 h404, h]

theorem fetch_fuel_add {σ : Type} (t : Transport σ) (fuel : Nat) (s : σ) (req : Request)
    (x : Settled FetchValue × σ × List Call)
    (h : fetch (platformFetch t) fuel s req = some x) :
    ∀ extra, fetch (platformFetch t) (fuel + extra) s req = some x := by
  intro extra
  induction extra with
  | zero => exact h
  | succ k ih => exact fetch_fuel_succ t (fuel + k) s req x ih

theorem fetch_of_issued_rejected {σ : Type} (t : Transport σ) :
    ∀ (fuel : Nat) (s : σ) (req : Request) (c : Call) (e : JSError),
      c ∈ issued t fuel s req → c.outcome = .rejected e →
      ∃ s' pre, issued t fuel s req = pre ++ [c]
        ∧ (∀ p ∈ pre, ∃ r, p.outcome = .fulfilled r)
        ∧ fetch (platformFetch t) fuel s req = some (.rejected e, s', pre ++ [c]) := by
  intro fuel
  induction fuel with
  | zero => intro s req c e hc; simp [issued] at hc
  | succ n ih =>
    intro s req c e hc hout
    rcases hfirst : t s req with ⟨o1, s1⟩
    cases o1 with
    | rejected e0 =>
      have hi : issued t (n + 1) s req = [⟨req, .rejected e0⟩] := by simp [issued, hfirst]
      rw [hi] at hc ⊢
      simp only [List.mem_singleton] at hc
      subst hc
      simp only [Settled.rejected.injEq] at hout
      subst hout
      exact ⟨s1, [], rfl, by simp, fetch_first_rejected t s s1 req e0 n hfirst⟩
    | fulfilled r1 =>
      by_cases h401 : r1.status = 401
      · rcases hprobe : t s1 TEMP_API_200 with ⟨o2, s2⟩
        cases o2 with
        | rejected e0 =>
          have hi : issued t (n + 1) s req
              = [⟨req, .fulfilled r1⟩, ⟨TEMP_API_200, .rejected e0⟩] := by
            simp [issued, hfirst, h401, hprobe]
          rw [hi] at hc ⊢
          simp only [List.mem_cons, List.mem_singleton, List.not_mem_nil, or_false] at hc
          rcases hc with rfl | rfl
          · simp at hout
          · simp only [Settled.rejected.injEq] at hout
            subst hout
            exact ⟨s2, [⟨req, .fulfilled r1⟩], rfl, by simp,
              fetch_probe_rejected t s s1 s2 req r1 e0 n hfirst h401 hprobe⟩
        | fulfilled r2 =>
          by_cases h2 : r2.status = 401
          · have hi : issued t (n + 1) s req
                = [⟨req, .fulfilled r1⟩, ⟨TEMP_API_200, .fulfilled r2⟩] := by
              simp [issued, hfirst, h401, hprobe, h2]
            rw [hi] at hc
            simp only [List.mem_cons, List.mem_singleton, List.not_mem_nil, or_false] at hc
            rcases hc with rfl | rfl <;> simp at hout
          · have hi : issued t (n + 1) s req
                = ⟨req, .fulfilled r1⟩ :: ⟨TEMP_API_200, .fulfilled r2⟩
                    :: issued t n s2 TEMP_API_200 := by
              simp [issued, hfirst, h401, hprobe, h2]
            rw [hi] at hc ⊢
            simp only [List.mem_cons] at hc
            rcases hc with rfl | rfl | hc
            · simp at hout
            · simp at hout
            · obtain ⟨s', pre, hpre, hful, hfetch⟩ := ih s2 TEMP_API_200 c e hc hout
              refine ⟨s', ⟨req, .fulfilled r1⟩ :: ⟨TEMP_API_200, .fulfilled r2⟩ :: pre,
                by simp [hpre], ?_, ?_⟩
              · intro p hp
                simp only [List.mem_cons] at hp
                rcases hp with rfl | rfl | hp
                · exact ⟨r1, rfl⟩
                · exact ⟨r2, rfl⟩
                · exact hful p hp
              · rw [fetch_probe_other t s s1 s2 req r1 r2 n hfirst h401 hprobe h2, hfetch]
                rfl
      · by_cases h404 : r1.status = 404
        · have hi : issued t (n + 1) s req
              = ⟨req, .fulfilled r1⟩ :: issued t n s1 TEMP_API_200 := by
            simp [issued, hfirst, h404]
          rw [hi] at hc ⊢
          simp only [List.mem_cons] at hc
          rcases hc with rfl | hc
          · simp at hout
          · obtain ⟨s', pre, hpre, hful, hfetch⟩ := ih s1 TEMP_API_200 c e hc hout
            refine ⟨s', ⟨req, .fulfilled r1⟩ :: pre, by simp [hpre], ?_, ?_⟩
            · intro p hp
              simp only [List.mem_cons] at hp
              rcases hp with rfl | hp
              · exact ⟨r1, rfl⟩
              · exact hful p hp
            · rw [fetch_first_404 t s s1 req r1 n hfirst h404, hfetch]
              rfl
        · have hi : issued t (n + 1) s req = [⟨req, .fulfilled r1⟩] := by
            simp [issued, hfirst, h401, h404]
          rw [hi] at hc
          simp only [List.mem_singleton] at hc
          subst hc
          simp at hout

/-! ## The intercepted `fetch` -/

/-- C1: when the transport's first response has a status other than 401 and 404, the
intercepted fetch is fulfilled with exactly that response after exactly one transport
call, for any positive fuel. -/
theorem fetch_passthrough {σ : Type} (t : Transport σ) (s s1 : σ) (req : Request)
    (r : Response) (fuel : Nat)
    (hfirst : t s req = (.fulfilled r, s1))
    (h401 : r.status ≠ 401) (h404 : r.status ≠ 404) :
    fetch (platformFetch t) (fuel + 1) s req
      = some (.fulfilled (.response r), s1, [⟨req, .fulfilled r⟩]) :=
  fetch_first_other t s s1 req r fuel hfirst h401 h404

/-- Witness of C1: the stub whose first answer is 200. -/
theorem fetch_passthrough_witness :
    scripted [.fulfilled (stubResponse 200)] reqX = (.fulfilled (stubResponse 200), [])
    ∧ (stubResponse 200).status ≠ 401 ∧ (stubResponse 200).status ≠ 404
    ∧ fetch (platformFetch scripted) 1 [.fulfilled (stubResponse 200)] reqX
      = some (.fulfilled (.response (stubResponse 200)), [],
          [⟨reqX, .fulfilled (stubResponse 200)⟩]) :=
  ⟨rfl, by decide, by decide,
    fetch_passthrough scripted _ _ reqX (stubResponse 200) 0 rfl (by decide) (by decide)⟩

/-- C2: when the first response is 401 and the re-authentication call is answered 401
as well, the intercepted fetch is fulfilled with the empty object after exactly two
transport calls, for any positive fuel. -/
theorem fetch_reauth_denied {σ : Type} (t : Transport σ) (s s1 s2 : σ) (req : Request)
    (r1 r2 : Response) (fuel : Nat)
    (hfirst : t s req = (.fulfilled r1, s1)) (h1 : r1.status = 401)
    (hprobe : t s1 TEMP_API_200 = (.fulfilled r2, s2)) (h2 : r2.status = 401) :
    fetch (platformFetch t) (fuel + 1) s req
      = some (.fulfilled .empty, s2,
          [⟨req, .fulfilled r1⟩, ⟨TEMP_API_200, .fulfilled r2⟩]) :=
  fetch_probe_401 t s s1 s2 req r1 r2 fuel hfirst h1 hprobe h2

/-- Witness of C2: the stub that answers 401 twice. -/
theorem fetch_reauth_denied_witness :
    scripted [.fulfilled (stubResponse 401), .fulfilled (stubResponse 401)] reqX
      = (.fulfilled (stubResponse 401), [.fulfilled (stubResponse 401)])
    ∧ (stubResponse 401).status = 401
    ∧ scripted [.fulfilled (stubResponse 401)] TEMP_API_200
      = (.fulfilled (stubResponse 401), [])
    ∧ fetch (platformFetch scripted) 1
        [.fulfilled (stubResponse 401), .fulfilled (stubResponse 401)] reqX
      = some (.fulfilled .empty, [],
          [⟨reqX, .fulfilled (stubResponse 401)⟩,
           ⟨TEMP_API_200, .fulfilled (stubResponse 401)⟩]) :=
  ⟨rfl, rfl, rfl,
    fetch_reauth_denied scripted _ _ _ reqX (stubResponse 401) (stubResponse 401) 0
      rfl rfl rfl rfl⟩

/-- C3, as stated, fails: with `/x` answered 401 and every other URL 200, the chain
issues `/x`, then `TEMP_API['200']` (the probe), then `TEMP_API['200']` again. The
original request is not issued a second time, and the value returned is the answer to
`TEMP_API['200']`. -/
theorem fetch_reauth_replays_fallback_counterexample :
    requestsOf (fetch (platformFetch unauthorizedX) 2 () reqX)
      = some [reqX, TEMP_API_200, TEMP_API_200]
    ∧ TEMP_API_200 ≠ reqX
    ∧ fetch (platformFetch unauthorizedX) 2 () reqX
      = some (.fulfilled (.response (stubResponse 200 "OK")), (),
          [⟨reqX, .fulfilled (stubResponse 401 "Unauthorized")⟩,
           ⟨TEMP_API_200, .fulfilled (stubResponse 200 "OK")⟩,
           ⟨TEMP_API_200, .fulfilled (stubResponse 200 "OK")⟩]) :=
  ⟨by decide, by decide, by rfl⟩

/-- C3, amended: when the first response is 401 and the re-authentication call is
answered with another status, the chain continues as the intercepted fetch of the fixed
request `TEMP_API['200']` and returns whatever that nested chain returns, its calls
following the first two. In particular, when the third call is answered with a status
other than 401 and 404, that third response is returned after exactly three transport
calls: the original request, `TEMP_API['200']`, `TEMP_API['200']`. -/
theorem fetch_reauth_then_fallback {σ : Type} (t : Transport σ) (s s1 s2 : σ)
    (req : Request) (r1 r2 : Response) (fuel : Nat)
    (hfirst : t s req = (.fulfilled r1, s1)) (h1 : r1.status = 401)
    (hprobe : t s1 TEMP_API_200 = (.fulfilled r2, s2)) (h2 : r2.status ≠ 401) :
    fetch (platformFetch t) (fuel + 1) s req
      = (fetch (platformFetch t) fuel s2 TEMP_API_200).map
          (fun x => (x.1, x.2.1,
            ⟨req, .fulfilled r1⟩ :: ⟨TEMP_API_200, .fulfilled r2⟩ :: x.2.2))
    ∧ ∀ (r3 : Response) (s3 : σ), t s2 TEMP_API_200 = (.fulfilled r3, s3) →
        r3.status ≠ 401 → r3.status ≠ 404 →
        fetch (platformFetch t) (fuel + 2) s req
          = some (.fulfilled (.response r3), s3,
              [⟨req, .fulfilled r1⟩, ⟨TEMP_API_200, .fulfilled r2⟩,
               ⟨TEMP_API_200, .fulfilled r3⟩]) := by
  refine ⟨fetch_probe_other t s s1 s2 req r1 r2 fuel hfirst h1 hprobe h2, ?_⟩
  intro r3 s3 hthird h3 h3'
  rw [fetch_probe_other t s s1 s2 req r1 r2 (fuel + 1) hfirst h1 hprobe h2,
    fetch_first_other t s2 s3 TEMP_API_200 r3 fuel hthird h3 h3']
  rfl

/-- Witness of C3, amended: the scripted stub answering 401, 200, 200. -/
theorem fetch_reauth_then_fallback_witness :
    scripted [.fulfilled (stubResponse 401), .fulfilled (stubResponse 200 "probe"),
        .fulfilled (stubResponse 200 "replay")] reqX
      = (.fulfilled (stubResponse 401),
          [.fulfilled (stubResponse 200 "probe"), .fulfilled (stubResponse 200 "replay")])
    ∧ (stubResponse 401).status = 401
    ∧ scripted [.fulfilled (stubResponse 200 "probe"),
        .fulfilled (stubResponse 200 "replay")] TEMP_API_200
      = (.fulfilled (stubResponse 200 "probe"), [.fulfilled (stubResponse 200 "replay")])
    ∧ (stubResponse 200 "probe").status ≠ 401
    ∧ fetch (platformFetch scripted) 2
        [.fulfilled (stubResponse 401), .fulfilled (stubResponse 200 "probe"),
          .fulfilled (stubResponse 200 "replay")] reqX
      = some (.fulfilled (.response (stubResponse 200 "replay")), [],
          [⟨reqX, .fulfilled (stubResponse 401)⟩,
           ⟨TEMP_API_200, .fulfilled (stubResponse 200 "probe")⟩,
           ⟨TEMP_API_200, .fulfilled (stubResponse 200 "replay")⟩]) :=
  ⟨rfl, rfl, rfl, by decide,
    (fetch_reauth_then_fallback scripted
      [.fulfilled (stubResponse 401), .fulfilled (stubResponse 200 "probe"),
        .fulfilled (stubResponse 200 "replay")]
      [.fulfilled (stubResponse 200 "probe"), .fulfilled (stubResponse 200 "replay")]
      [.fulfilled (stubResponse 200 "replay")] reqX (stubResponse 401)
      (stubResponse 200 "probe") 0 rfl rfl rfl (by decide)).2
      (stubResponse 200 "replay") [] rfl (by decide) (by decide)⟩

/-- C4, as stated, fails when the fallback is answered 404: with the answers 404, 404,
200 the fallback request is issued twice and the value returned is the third answer, not
the fallback's 404 response. -/
theorem fetch_404_fallback_404_counterexample :
    requestsOf (fetch (platformFetch scripted) 3
        [.fulfilled (stubResponse 404 "first"), .fulfilled (stubResponse 404 "second"),
          .fulfilled (stubResponse 200 "third")] reqX)
      = some [reqX, TEMP_API_200, TEMP_API_200]
    ∧ fetch (platformFetch scripted) 3
        [.fulfilled (stubResponse 404 "first"), .fulfilled (stubResponse 404 "second"),
          .fulfilled (stubResponse 200 "third")] reqX
      = some (.fulfilled (.response (stubResponse 200 "third")), [],
          [⟨reqX, .fulfilled (stubResponse 404 "first")⟩,
           ⟨TEMP_API_200, .fulfilled (stubResponse 404 "second")⟩,
           ⟨TEMP_API_200, .fulfilled (stubResponse 200 "third")⟩]) :=
  ⟨by decide, by rfl⟩

/-- C4, amended: when the first response is 404, the chain continues as the intercepted
fetch of the fixed request `TEMP_API['200']` and returns whatever that nested chain
returns, its calls following the first. In particular, when the fallback is answered with
a status other than 401 and 404 (such as 200), the fallback's response is returned after
exactly two transport calls. -/
theorem fetch_404_then_fallback {σ : Type} (t : Transport σ) (s s1 : σ)
    (req : Request) (r1 : Response) (fuel : Nat)
    (hfirst : t s req = (.fulfilled r1, s1)) (h1 : r1.status = 404) :
    fetch (platformFetch t) (fuel + 1) s req
      = (fetch (platformFetch t) fuel s1 TEMP_API_200).map
          (fun x => (x.1, x.2.1, ⟨req, .fulfilled r1⟩ :: x.2.2))
    ∧ ∀ (r2 : Response) (s2 : σ), t s1 TEMP_API_200 = (.fulfilled r2, s2) →
        r2.status ≠ 401 → r2.status ≠ 404 →
        fetch (platformFetch t) (fuel + 2) s req
          = some (.fulfilled (.response r2), s2,
              [⟨req, .fulfilled r1⟩, ⟨TEMP_API_200, .fulfilled r2⟩]) := by
  refine ⟨fetch_first_404 t s s1 req r1 fuel hfirst h1, ?_⟩
  intro r2 s2 hfb h2 h2'
  rw [fetch_first_404 t s s1 req r1 (fuel + 1) hfirst h1,
    fetch_first_other t s1 s2 TEMP_API_200 r2 fuel hfb h2 h2']
  rfl

/-- Witness of C4, amended: the stub of the specification, 404 first and 200 on the
fallback. -/
theorem fetch_404_then_fallback_witness :
    scripted [.fulfilled (stubResponse 404), .fulfilled (stubResponse 200)] reqX
      = (.fulfilled (stubResponse 404), [.fulfilled (stubResponse 200)])
    ∧ (stubResponse 404).status = 404
    ∧ fetch (platformFetch scripted) 2
        [.fulfilled (stubResponse 404), .fulfilled (stubResponse 200)] reqX
      = some (.fulfilled (.response (stubResponse 200)), [],
          [⟨reqX, .fulfilled (stubResponse 404)⟩,
           ⟨TEMP_API_200, .fulfilled (stubResponse 200)⟩]) :=
  ⟨rfl, rfl,
    (fetch_404_then_fallback scripted
      [.fulfilled (stubResponse 404), .fulfilled (stubResponse 200)]
      [.fulfilled (stubResponse 200)] reqX (stubResponse 404) 0 rfl rfl).2
      (stubResponse 200) [] rfl (by decide) (by decide)⟩

/-- C5, as stated, fails: against a transport that answers 404 to everything the chain
never settles, whatever the fuel, so no bound on its transport calls exists. -/
theorem fetch_unbounded_counterexample :
    ¬ ∃ fuel, (fetch (platformFetch (always 404)) fuel () reqX).isSome = true := by
  rintro ⟨fuel, h⟩
  rw [fetch_always_404 fuel reqX] at h
  exact Bool.false_ne_true h

/-- C5, amended: when the transport delivers a response to the first call and answers
the fixed request `TEMP_API['200']` with a status other than 401 and 404 in every state,
the chain settles after at most three transport calls with one response, the same for
every fuel from 2 on. -/
theorem fetch_bounded_of_fallback_ok {σ : Type} (t : Transport σ) (s s0 : σ)
    (req : Request) (r0 : Response)
    (hfirst : t s req = (.fulfilled r0, s0))
    (hfb : ∀ s, ∃ r s1, t s TEMP_API_200 = (.fulfilled r, s1)
      ∧ r.status ≠ 401 ∧ r.status ≠ 404) :
    ∃ (r : Response) (s' : σ) (calls : List Call), calls.length ≤ 3
      ∧ ∀ fuel, fetch (platformFetch t) (fuel + 2) s req
          = some (.fulfilled (.response r), s', calls) := by
  by_cases h401 : r0.status = 401
  · obtain ⟨r2, s2, hprobe, h2, _⟩ := hfb s0
    obtain ⟨r3, s3, hthird, h3, h3'⟩ := hfb s2
    refine ⟨r3, s3, [⟨req, .fulfilled r0⟩, ⟨TEMP_API_200, .fulfilled r2⟩,
      ⟨TEMP_API_200, .fulfilled r3⟩], by simp, ?_⟩
    intro fuel
    rw [fetch_probe_other t s s0 s2 req r0 r2 (fuel + 1) hfirst h401 hprobe h2,
      fetch_first_other t s2 s3 TEMP_API_200 r3 fuel hthird h3 h3']
    rfl
  · by_cases h404 : r0.status = 404
    · obtain ⟨r2, s2, hsecond, h2, h2'⟩ := hfb s0
      refine ⟨r2, s2, [⟨req, .fulfilled r0⟩, ⟨TEMP_API_200, .fulfilled r2⟩], by simp, ?_⟩
      intro fuel
      rw [fetch_first_404 t s s0 req r0 (fuel + 1) hfirst h404,
        fetch_first_other t s0 s2 TEMP_API_200 r2 fuel hsecond h2 h2']
      rfl
    · exact ⟨r0, s0, [⟨req, .fulfilled r0⟩], by simp,
        fun fuel => fetch_first_other t s s0 req r0 (fuel + 1) hfirst h401 h404⟩

/-- Witness of C5, amended: the transport that answers 401 to `/x` and 200 elsewhere. -/
theorem fetch_bounded_of_fallback_ok_witness :
    unauthorizedX () reqX = (.fulfilled (stubResponse 401 "Unauthorized"), ())
    ∧ (∀ s, ∃ r s1, unauthorizedX s TEMP_API_200 = (.fulfilled r, s1)
        ∧ r.status ≠ 401 ∧ r.status ≠ 404)
    ∧ ∃ (r : Response) (s' : Unit) (calls : List Call), calls.length ≤ 3
      ∧ ∀ fuel, fetch (platformFetch unauthorizedX) (fuel + 2) () reqX
          = some (.fulfilled (.response r), s', calls) :=
  ⟨rfl, fun _ => ⟨stubResponse 200 "OK", (), rfl, by decide, by decide⟩,
    fetch_bounded_of_fallback_ok unauthorizedX () () reqX
      (stubResponse 401 "Unauthorized") rfl
      (fun _ => ⟨stubResponse 200 "OK", (), rfl, by decide, by decide⟩)⟩

/-- C6, as stated, fails: when the first transport call fails at the network level the
promise returned by the intercepted fetch is rejected with that error; no error response
is produced. -/
theorem fetch_transport_failure_counterexample :
    scripted [] reqX = (.rejected (.networkError "Failed to fetch"), [])
    ∧ fetch (platformFetch scripted) 1 [] reqX
      = some (.rejected (.networkError "Failed to fetch"), [],
          [⟨reqX, .rejected (.networkError "Failed to fetch")⟩]) :=
  ⟨rfl, rfl⟩

/-- C6, amended: a transport failure is passed on to the caller as a rejection with the
transport's own error, and ends the chain, on whichever call of the chain it happens.
Whenever the calls that the chain has issued within some nesting depth contain a call
that the transport rejected, that call is the last one issued, all calls before it were
fulfilled, and at that depth and every greater one the chain is settled: rejected with
that error after exactly those calls. In particular a failure of the first call rejects
after that one call and a failure of the re-authentication call after those two; and in
every settled chain the chain is rejected with an error exactly when its last transport
call was rejected with it. -/
theorem fetch_transport_failure_propagates {σ : Type} (t : Transport σ) :
    (∀ (fuel : Nat) (s : σ) (req : Request) (c : Call) (e : JSError),
        c ∈ issued t fuel s req → c.outcome = .rejected e →
        ∃ s' pre, issued t fuel s req = pre ++ [c]
          ∧ (∀ p ∈ pre, ∃ r, p.outcome = .fulfilled r)
          ∧ ∀ extra, fetch (platformFetch t) (fuel + extra) s req
              = some (.rejected e, s', pre ++ [c]))
    ∧ (∀ (s s1 : σ) (req : Request) (e : JSError) (fuel : Nat),
        t s req = (.rejected e, s1) →
        fetch (platformFetch t) (fuel + 1) s req
          = some (.rejected e, s1, [⟨req, .rejected e⟩]))
    ∧ (∀ (s s1 s2 : σ) (req : Request) (r1 : Response) (e : JSError) (fuel : Nat),
        t s req = (.fulfilled r1, s1) → r1.status = 401 →
        t s1 TEMP_API_200 = (.rejected e, s2) →
        fetch (platformFetch t) (fuel + 1) s req
          = some (.rejected e, s2,
              [⟨req, .fulfilled r1⟩, ⟨TEMP_API_200, .rejected e⟩]))
    ∧ (∀ (fuel : Nat) (s : σ) (req : Request) (out : Settled FetchValue) (s' : σ)
        (calls : List Call),
        fetch (platformFetch t) fuel s req = some (out, s', calls) →
        ∃ pre c, calls = pre ++ [c] ∧ (∀ p ∈ pre, ∃ r, p.outcome = .fulfilled r)
          ∧ ∀ e, c.outcome = .rejected e ↔ out = .rejected e) := by
  refine ⟨?_, fun s s1 req e fuel h => fetch_first_rejected t s s1 req e fuel h,
    fun s s1 s2 req r1 e fuel h h1 hp =>
      fetch_probe_rejected t s s1 s2 req r1 e fuel h h1 hp,
    fetch_calls_shape t⟩
  intro fuel s req c e hc hout
  obtain ⟨s', pre, hpre, hful, hfetch⟩ := fetch_of_issued_rejected t fuel s req c e hc hout
  exact ⟨s', pre, hpre, hful, fetch_fuel_add t fuel s req _ hfetch⟩

/-- Witness of C6, amended: against the single answer 404 the fallback call fails, and
the chain of `/x` is rejected with the network error after those two calls, at depth 2
and at every greater depth; against the single answer 401 the re-authentication call
fails in the same way. -/
theorem fetch_transport_failure_propagates_witness :
    ((⟨TEMP_API_200, .rejected (.networkError "Failed to fetch")⟩ : Call)
        ∈ issued scripted 2 [.fulfilled (stubResponse 404)] reqX
      ∧ ∃ s' pre, issued scripted 2 [.fulfilled (stubResponse 404)] reqX
          = pre ++ [⟨TEMP_API_200, .rejected (.networkError "Failed to fetch")⟩]
        ∧ (∀ p ∈ pre, ∃ r, p.outcome = .fulfilled r)
        ∧ ∀ extra, fetch (platformFetch scripted) (2 + extra)
              [.fulfilled (stubResponse 404)] reqX
            = some (.rejected (.networkError "Failed to fetch"), s',
                pre ++ [⟨TEMP_API_200, .rejected (.networkError "Failed to fetch")⟩]))
    ∧ fetch (platformFetch scripted) 5 [.fulfilled (stubResponse 404)] reqX
      = some (.rejected (.networkError "Failed to fetch"), [],
          [⟨reqX, .fulfilled (stubResponse 404)⟩,
           ⟨TEMP_API_200, .rejected (.networkError "Failed to fetch")⟩])
    ∧ scripted [.fulfilled (stubResponse 401)] reqX = (.fulfilled (stubResponse 401), [])
    ∧ (stubResponse 401).status = 401
    ∧ scripted [] TEMP_API_200 = (.rejected (.networkError "Failed to fetch"), [])
    ∧ fetch (platformFetch scripted) 1 [.fulfilled (stubResponse 401)] reqX
      = some (.rejected (.networkError "Failed to fetch"), [],
          [⟨reqX, .fulfilled (stubResponse 401)⟩,
           ⟨TEMP_API_200, .rejected (.networkError "Failed to fetch")⟩]) :=
  ⟨⟨List.Mem.tail _ (List.Mem.head _),
      (fetch_transport_failure_propagates scripted).1 2
        [.fulfilled (stubResponse 404)] reqX
        ⟨TEMP_API_200, .rejected (.networkError "Failed to fetch")⟩
        (.networkError "Failed to fetch") (List.Mem.tail _ (List.Mem.head _)) rfl⟩,
    rfl, rfl, rfl, rfl,
    (fetch_transport_failure_propagates scripted).2.2.1
      [.fulfilled (stubResponse 401)] [] [] reqX (stubResponse 401)
      (.networkError "Failed to fetch") 0 rfl rfl rfl⟩

/-! ## The catalog functions of `api.js` -/

/-- C7: for each of the five catalog functions, when the global `fetch` delivers a
response to the function's request, a response that is not ok yields the envelope
`{status, isError: true, error: "Request failed with status <status>: <statusText>"}`
and an ok response whose body parses yields the parsed JSON body; the transport state
and the calls are those of the one `fetch`. -/
theorem catalog_json_or_envelope {σ : Type} (g : Globals σ) (s s1 : σ) (uri : String)
    (r : Response) (calls : List Call)
    (result : Option (Settled JSVal × σ × List Call))
    (hfun : (uri = "/api/main/movies/" ∧ result = getAllMovies g s)
      ∨ (∃ id, uri = "/api/main/movies/" ++ id.toStr ∧ result = getMovie g id s)
      ∨ (∃ id, uri = "/api/main/actors?movieId=" ++ id.toStr
          ∧ result = getActorsMovie g id s)
      ∨ (∃ id, uri = "/api/main/directors?movieId=" ++ id.toStr
          ∧ result = getDirectorsMovie g id s)
      ∨ (∃ id page size, uri = reviewsUri id page size
          ∧ result = getReviewsOfMovie g id page size s))
    (hdelivered : g.fetch s { url := apiBaseUrl ++ uri, args := settings }
      = some (.fulfilled (.response r), s1, calls)) :
    (r.ok = false →
      result = some (.fulfilled (.obj [("status", .num r.status), ("isError", .bool true),
        ("error", .str ("Request failed with status " ++ toString r.status ++ ": "
          ++ r.statusText))]), s1, calls))
    ∧ (r.ok = true → ∀ j, r.json = .ok j → result = some (.fulfilled j, s1, calls)) := by
  rw [catalog_functions_eq g s uri result hfun,
    catalog_of_delivered g uri s s1 (.response r) calls hdelivered]
  constructor
  · intro hok
    simp [afterGetData, FetchValue.ok, hok, errorEnvelope, toStr_status]
    simp [FetchValue.status, FetchValue.statusText, JSVal.toStr, JSVal.toStrIn]
  · intro hok j hj
    simp [afterGetData, FetchValue.ok, hok, FetchValue.json, hj]

/-- Witness of C7: `getMovie(7)` against a transport that answers 404 Not Found gives
the envelope, and `getAllMovies()` against one that answers 200 gives the parsed body. -/
theorem catalog_json_or_envelope_witness :
    ((platformGlobals scripted).fetch [.fulfilled (stubResponse 404 "Not Found")]
        { url := apiBaseUrl ++ ("/api/main/movies/" ++ (JSVal.num 7).toStr),
          args := settings }
      = some (.fulfilled (.response (stubResponse 404 "Not Found")), [],
          [⟨⟨"http://localhost:8080/api/main/movies/7", settings⟩,
            .fulfilled (stubResponse 404 "Not Found")⟩])
      ∧ (stubResponse 404 "Not Found").ok = false
      ∧ getMovie (platformGlobals scripted) (.num 7)
          [.fulfilled (stubResponse 404 "Not Found")]
        = some (.fulfilled (.obj [("status", .num 404), ("isError", .bool true),
            ("error", .str "Request failed with status 404: Not Found")]), [],
            [⟨⟨"http://localhost:8080/api/main/movies/7", settings⟩,
              .fulfilled (stubResponse 404 "Not Found")⟩]))
    ∧ ((platformGlobals scripted).fetch [.fulfilled (stubResponse 200 "OK")]
        { url := apiBaseUrl ++ "/api/main/movies/", args := settings }
      = some (.fulfilled (.response (stubResponse 200 "OK")), [],
          [⟨⟨"http://localhost:8080/api/main/movies/", settings⟩,
            .fulfilled (stubResponse 200 "OK")⟩])
      ∧ (stubResponse 200 "OK").ok = true
      ∧ (stubResponse 200 "OK").json = .ok (.obj [])
      ∧ getAllMovies (platformGlobals scripted) [.fulfilled (stubResponse 200 "OK")]
        = some (.fulfilled (.obj []), [],
            [⟨⟨"http://localhost:8080/api/main/movies/", settings⟩,
              .fulfilled (stubResponse 200 "OK")⟩])) :=
  ⟨⟨rfl, rfl,
      (catalog_json_or_envelope (platformGlobals scripted)
        [.fulfilled (stubResponse 404 "Not Found")] []
        ("/api/main/movies/" ++ (JSVal.num 7).toStr) (stubResponse 404 "Not Found") _ _
        (Or.inr (Or.inl ⟨.num 7, rfl, rfl⟩)) rfl).1 rfl⟩,
    ⟨rfl, rfl, rfl,
      (catalog_json_or_envelope (platformGlobals scripted)
        [.fulfilled (stubResponse 200 "OK")] [] "/api/main/movies/"
        (stubResponse 200 "OK") _ _ (Or.inl ⟨rfl, rfl⟩) rfl).2 rfl (.obj []) rfl⟩⟩

/-- C8, as stated, fails in both cases: `getMovie(7)` is rejected with the parser's
error when the body of a 200 response is not valid JSON, and is rejected with a
`TypeError` when the transport fails. No envelope is produced in either case. -/
theorem catalog_rejects_counterexample :
    getMovie (platformGlobals scripted) (.num 7) [.fulfilled brokenJsonResponse]
      = some (.rejected (.syntaxError "Unexpected token < in JSON at position 0"), [],
          [⟨⟨"http://localhost:8080/api/main/movies/7", settings⟩,
            .fulfilled brokenJsonResponse⟩])
    ∧ getMovie (platformGlobals scripted) (.num 7) []
      = some (.rejected (.typeError "Cannot read properties of undefined (reading 'ok')"),
          [],
          [⟨⟨"http://localhost:8080/api/main/movies/7", settings⟩,
            .rejected (.networkError "Failed to fetch")⟩]) :=
  ⟨rfl, rfl⟩

/-- C8, amended: for each of the five catalog functions, when the global `fetch`
delivers an ok response whose body is not valid JSON, the function is rejected with the
parser's error. -/
theorem catalog_parse_failure_rejects {σ : Type} (g : Globals σ) (s s1 : σ)
    (uri : String) (r : Response) (e : JSError) (calls : List Call)
    (result : Option (Settled JSVal × σ × List Call))
    (hfun : (uri = "/api/main/movies/" ∧ result = getAllMovies g s)
      ∨ (∃ id, uri = "/api/main/movies/" ++ id.toStr ∧ result = getMovie g id s)
      ∨ (∃ id, uri = "/api/main/actors?movieId=" ++ id.toStr
          ∧ result = getActorsMovie g id s)
      ∨ (∃ id, uri = "/api/main/directors?movieId=" ++ id.toStr
          ∧ result = getDirectorsMovie g id s)
      ∨ (∃ id page size, uri = reviewsUri id page size
          ∧ result = getReviewsOfMovie g id page size s))
    (hdelivered : g.fetch s { url := apiBaseUrl ++ uri, args := settings }
      = some (.fulfilled (.response r), s1, calls))
    (hok : r.ok = true) (hparse : r.json = .error e) :
    result = some (.rejected e, s1, calls) := by
  rw [catalog_functions_eq g s uri result hfun,
    catalog_of_delivered g uri s s1 (.response r) calls hdelivered]
  simp [afterGetData, FetchValue.ok, hok, FetchValue.json, hparse]

/-- Witness of C8, amended: `getAllMovies()` on a 200 response with a broken body. -/
theorem catalog_parse_failure_rejects_witness :
    (platformGlobals scripted).fetch [.fulfilled brokenJsonResponse]
        { url := apiBaseUrl ++ "/api/main/movies/", args := settings }
      = some (.fulfilled (.response brokenJsonResponse), [],
          [⟨⟨"http://localhost:8080/api/main/movies/", settings⟩,
            .fulfilled brokenJsonResponse⟩])
    ∧ brokenJsonResponse.ok = true
    ∧ brokenJsonResponse.json
      = .error (.syntaxError "Unexpected token < in JSON at position 0")
    ∧ getAllMovies (platformGlobals scripted) [.fulfilled brokenJsonResponse]
      = some (.rejected (.syntaxError "Unexpected token < in JSON at position 0"), [],
          [⟨⟨"http://localhost:8080/api/main/movies/", settings⟩,
            .fulfilled brokenJsonResponse⟩]) :=
  ⟨rfl, rfl, rfl,
    catalog_parse_failure_rejects (platformGlobals scripted)
      [.fulfilled brokenJsonResponse] [] "/api/main/movies/" brokenJsonResponse _ _ _
      (Or.inl ⟨rfl, rfl⟩) rfl rfl rfl⟩

/-- C9, as stated, fails: `getReviewsOfMovie(7, 2, 10)` requests a URL whose query
parameters are named `number` and `size`; there is no parameter named `page`. -/
theorem getReviewsOfMovie_query_counterexample :
    requestsOf (getReviewsOfMovie (platformGlobals scripted) (.num 7) (.num 2) (.num 10)
        [.fulfilled (stubResponse 200)])
      = some [⟨"http://localhost:8080/api/main/movie-reviews/reviews/7?number=2&size=10",
          settings⟩]
    ∧ queryParams "http://localhost:8080/api/main/movie-reviews/reviews/7?number=2&size=10"
      = [("number", "2"), ("size", "10")]
    ∧ (queryParams
        "http://localhost:8080/api/main/movie-reviews/reviews/7?number=2&size=10").lookup
          "page" = none :=
  ⟨by decide, by decide, by decide⟩

/-- C9, amended: for every movie id, page and size whose numbers are safe integers,
`getReviewsOfMovie(id, page, size)` issues one request, to the review listing of the
movie, with the page passed as the query parameter `number` and the size as the query
parameter `size`; an omitted (`undefined`) page is sent as `0` and an omitted size as
`50`, each independently of the other. -/
theorem getReviewsOfMovie_request {σ : Type} (t : Transport σ) (s : σ)
    (id page size : JSVal) :
    id.safeToPrint = true → page.safeToPrint = true → size.safeToPrint = true →
    requestsOf (getReviewsOfMovie (platformGlobals t) id page size s)
      = some [⟨"http://localhost:8080/api/main/movie-reviews/reviews/" ++ id.toStr
          ++ "?number=" ++ page.toStrOr "0" ++ "&size=" ++ size.toStrOr "50",
          settings⟩] := by
  have hbase : ∀ x : String, apiBaseUrl ++ ("/api/main/movie-reviews/reviews/" ++ x)
      = "http://localhost:8080/api/main/movie-reviews/reviews/" ++ x := by
    intro x
    rw [← String.append_assoc]
    rfl
  -- the hypotheses mark where the model's string conversion is JavaScript's; the
  -- equation between the two sides holds of the model for all values
  intro _ _ _
  simp only [getReviewsOfMovie, requestsOf_catalog_platform, reviewsUri]
  cases page <;> cases size <;>
    simp only [JSVal.orDefault, JSVal.toStrOr, String.append_assoc, hbase] <;> rfl

/-- Witness of C9, amended: `getReviewsOfMovie(7, 2, 10)`, `getReviewsOfMovie(7, 2)`,
`getReviewsOfMovie(7, undefined, 10)` and `getReviewsOfMovie(7)`. -/
theorem getReviewsOfMovie_request_witness :
    (JSVal.num 7).safeToPrint = true ∧ (JSVal.num 2).safeToPrint = true
    ∧ (JSVal.num 10).safeToPrint = true ∧ JSVal.undefined.safeToPrint = true
    ∧ requestsOf (getReviewsOfMovie (platformGlobals scripted) (.num 7) (.num 2) (.num 10)
        [.fulfilled (stubResponse 200)])
      = some [⟨"http://localhost:8080/api/main/movie-reviews/reviews/7?number=2&size=10",
          settings⟩]
    ∧ requestsOf (getReviewsOfMovie (platformGlobals scripted) (.num 7) (.num 2)
        .undefined [.fulfilled (stubResponse 200)])
      = some [⟨"http://localhost:8080/api/main/movie-reviews/reviews/7?number=2&size=50",
          settings⟩]
    ∧ requestsOf (getReviewsOfMovie (platformGlobals scripted) (.num 7) .undefined
        (.num 10) [.fulfilled (stubResponse 200)])
      = some [⟨"http://localhost:8080/api/main/movie-reviews/reviews/7?number=0&size=10",
          settings⟩]
    ∧ requestsOf (getReviewsOfMovie (platformGlobals scripted) (.num 7) .undefined
        .undefined [.fulfilled (stubResponse 200)])
      = some [⟨"http://localhost:8080/api/main/movie-reviews/reviews/7?number=0&size=50",
          settings⟩] :=
  ⟨rfl, rfl, rfl, rfl,
    (getReviewsOfMovie_request scripted [.fulfilled (stubResponse 200)] (.num 7) (.num 2)
      (.num 10) rfl rfl rfl),
    (getReviewsOfMovie_request scripted [.fulfilled (stubResponse 200)] (.num 7) (.num 2)
      .undefined rfl rfl rfl),
    (getReviewsOfMovie_request scripted [.fulfilled (stubResponse 200)] (.num 7)
      .undefined (.num 10) rfl rfl rfl),
    (getReviewsOfMovie_request scripted [.fulfilled (stubResponse 200)] (.num 7)
      .undefined .undefined rfl rfl rfl)⟩

/-! ## The global binding -/

/-- C10, as stated, fails: after `fetchAndRetry.js` is loaded the global `fetch` is no
longer the platform's. Against the answers 404, 200 the platform's `fetch` returns the
404 response after one call, while the binding in place after the load returns the 200
response after two. -/
theorem load_replaces_global_fetch_counterexample :
    (platformGlobals scripted).fetch
        [.fulfilled (stubResponse 404), .fulfilled (stubResponse 200)] reqX
      = some (.fulfilled (.response (stubResponse 404)), [.fulfilled (stubResponse 200)],
          [⟨reqX, .fulfilled (stubResponse 404)⟩])
    ∧ (loadFetchAndRetry 2 (platformGlobals scripted)).fetch
        [.fulfilled (stubResponse 404), .fulfilled (stubResponse 200)] reqX
      = some (.fulfilled (.response (stubResponse 200)), [],
          [⟨reqX, .fulfilled (stubResponse 404)⟩,
           ⟨TEMP_API_200, .fulfilled (stubResponse 200)⟩])
    ∧ (loadFetchAndRetry 2 (platformGlobals scripted)).fetch
      ≠ (platformGlobals scripted).fetch := by
  refine ⟨rfl, rfl, fun h => ?_⟩
  have h2 := congrArg requestsOf (congrFun (congrFun h
    [.fulfilled (stubResponse 404), .fulfilled (stubResponse 200)]) reqX)
  revert h2
  decide

/-- C10, amended: loading `fetchAndRetry.js` rebinds the global `fetch` to the
interceptor built over the binding it replaces, so the retry behaviour reaches every
caller of the global `fetch`. In particular `requests.getData`, which only calls the
global `fetch`, then receives the fallback's response when its own request is answered
404 and the fallback with a status other than 401 and 404. -/
theorem load_installs_interceptor {σ : Type} (t : Transport σ) (s s1 s2 : σ)
    (uri : String) (r1 r2 : Response) (fuel : Nat)
    (hfirst : t s { url := apiBaseUrl ++ uri, args := settings } = (.fulfilled r1, s1))
    (h1 : r1.status = 404)
    (hfb : t s1 TEMP_API_200 = (.fulfilled r2, s2))
    (h2 : r2.status ≠ 401) (h2' : r2.status ≠ 404) :
    (loadFetchAndRetry (fuel + 2) (platformGlobals t)).fetch
      = fetch (platformGlobals t).fetch (fuel + 2)
    ∧ getData (platformGlobals t) uri s
      = some (.fulfilled (some (.response r1)), s1,
          [⟨{ url := apiBaseUrl ++ uri, args := settings }, .fulfilled r1⟩])
    ∧ getData (loadFetchAndRetry (fuel + 2) (platformGlobals t)) uri s
      = some (.fulfilled (some (.response r2)), s2,
          [⟨{ url := apiBaseUrl ++ uri, args := settings }, .fulfilled r1⟩,
           ⟨TEMP_API_200, .fulfilled r2⟩]) := by
  refine ⟨rfl, ?_, ?_⟩
  · simp [getData, platformGlobals, platformFetch, hfirst]
  · have hchain : fetch (platformFetch t) (fuel + 2) s
        { url := apiBaseUrl ++ uri, args := settings }
        = some (.fulfilled (.response r2), s2,
          [⟨{ url := apiBaseUrl ++ uri, args := settings }, .fulfilled r1⟩,
           ⟨TEMP_API_200, .fulfilled r2⟩]) := by
      rw [fetch_first_404 t s s1 _ r1 (fuel + 1) hfirst h1,
        fetch_first_other t s1 s2 TEMP_API_200 r2 fuel hfb h2 h2']
      rfl
    simp [getData, loadFetchAndRetry, platformGlobals, hchain]

/-- Witness of C10, amended: `getData('/api/main/movies/')` against the answers 404, 200,
before and after the load. -/
theorem load_installs_interceptor_witness :
    scripted [.fulfilled (stubResponse 404), .fulfilled (stubResponse 200)]
        { url := apiBaseUrl ++ "/api/main/movies/", args := settings }
      = (.fulfilled (stubResponse 404), [.fulfilled (stubResponse 200)])
    ∧ (stubResponse 404).status = 404
    ∧ scripted [.fulfilled (stubResponse 200)] TEMP_API_200
      = (.fulfilled (stubResponse 200), [])
    ∧ (stubResponse 200).status ≠ 401 ∧ (stubResponse 200).status ≠ 404
    ∧ getData (platformGlobals scripted) "/api/main/movies/"
        [.fulfilled (stubResponse 404), .fulfilled (stubResponse 200)]
      = some (.fulfilled (some (.response (stubResponse 404))),
          [.fulfilled (stubResponse 200)],
          [⟨{ url := apiBaseUrl ++ "/api/main/movies/", args := settings },
            .fulfilled (stubResponse 404)⟩])
    ∧ getData (loadFetchAndRetry 2 (platformGlobals scripted)) "/api/main/movies/"
        [.fulfilled (stubResponse 404), .fulfilled (stubResponse 200)]
      = some (.fulfilled (some (.response (stubResponse 200))), [],
          [⟨{ url := apiBaseUrl ++ "/api/main/movies/", args := settings },
            .fulfilled (stubResponse 404)⟩,
           ⟨TEMP_API_200, .fulfilled (stubResponse 200)⟩]) :=
  ⟨rfl, rfl, rfl, by decide, by decide,
    (load_installs_interceptor scripted
      [.fulfilled (stubResponse 404), .fulfilled (stubResponse 200)]
      [.fulfilled (stubResponse 200)] [] "/api/main/movies/" (stubResponse 404)
      (stubResponse 200) 0 rfl rfl rfl (by decide) (by decide)).2⟩

/-! ## The sections of the movie page -/

/-- C11: the code at the input of the claim. Given the error envelope that a catalog
function returns, `ReviewsList` renders the paragraph "No reviews yet.", while
`DirectorList` and `ActorList` both throw a `TypeError`, because the envelope has no
`map` method. -/
theorem sections_on_error_envelope (strGtZero : String → Bool) (response : FetchValue) :
    ReviewsList strGtZero (errorEnvelope response)
      = .ok (.element "p" .undefined [] [.value (.str "No reviews yet.")])
    ∧ DirectorList (errorEnvelope response) = .error (.typeError "map is not a function")
    ∧ ActorList (errorEnvelope response) = .error (.typeError "map is not a function") :=
  ⟨rfl, rfl, rfl⟩

/-! ## The targets of the later transport calls -/

theorem issued_fallback_requests {σ : Type} (t : Transport σ) :
    ∀ (fuel : Nat) (s : σ), ∀ c ∈ issued t fuel s TEMP_API_200,
      c.request = TEMP_API_200 := by
  intro fuel
  induction fuel with
  | zero => intro s c hc; simp [issued] at hc
  | succ n ih =>
    intro s c hc
    simp only [issued] at hc
    rcases hfirst : t s TEMP_API_200 with ⟨o1, s1⟩
    rw [hfirst] at hc
    cases o1 with
    | rejected e =>
      simp only [List.mem_singleton] at hc
      rw [hc]
    | fulfilled r1 =>
      simp only at hc
      split at hc
      · rcases hprobe : t s1 TEMP_API_200 with ⟨o2, s2⟩
        rw [hprobe] at hc
        cases o2 with
        | rejected e =>
          simp only [List.mem_cons, List.mem_singleton, List.not_mem_nil, or_false] at hc
          rcases hc with rfl | rfl <;> rfl
        | fulfilled r2 =>
          simp only at hc
          split at hc
          · simp only [List.mem_cons, List.mem_singleton, List.not_mem_nil, or_false] at hc
            rcases hc with rfl | rfl <;> rfl
          · simp only [List.mem_cons] at hc
            rcases hc with rfl | rfl | hc
            · rfl
            · rfl
            · exact ih s2 c hc
      · split at hc
        · simp only [List.mem_cons] at hc
          rcases hc with rfl | hc
          · rfl
          · exact ih s1 c hc
        · simp only [List.mem_singleton] at hc
          rw [hc]

theorem issued_head {σ : Type} (t : Transport σ) (fuel : Nat) (s : σ) (req : Request) :
    ∃ rest, issued t (fuel + 1) s req = ⟨req, (t s req).1⟩ :: rest
      ∧ ∀ c ∈ rest, c.request = TEMP_API_200 := by
  simp only [issued]
  rcases hfirst : t s req with ⟨o1, s1⟩
  cases o1 with
  | rejected e => exact ⟨[], rfl, by simp⟩
  | fulfilled r1 =>
    simp only
    split
    · rcases hprobe : t s1 TEMP_API_200 with ⟨o2, s2⟩
      cases o2 with
      | rejected e => exact ⟨_, rfl, by simp⟩
      | fulfilled r2 =>
        simp only
        split
        · exact ⟨_, rfl, by simp⟩
        · refine ⟨_, rfl, ?_⟩
          intro c hc
          simp only [List.mem_cons] at hc
          rcases hc with rfl | hc
          · rfl
          · exact issued_fallback_requests t fuel s2 c hc
    · split
      · exact ⟨_, rfl, issued_fallback_requests t fuel s1⟩
      · exact ⟨[], rfl, by simp⟩

theorem issued_of_settled {σ : Type} (t : Transport σ) :
    ∀ (fuel : Nat) (s : σ) (req : Request) (out : Settled FetchValue) (s' : σ)
      (calls : List Call),
      fetch (platformFetch t) fuel s req = some (out, s', calls) →
      calls = issued t fuel s req := by
  intro fuel
  induction fuel with
  | zero => intro s req out s' calls h; simp [fetch] at h
  | succ n ih =>
    intro s req out s' calls h
    rcases hfirst : t s req with ⟨o1, s1⟩
    cases o1 with
    | rejected e =>
      rw [fetch_first_rejected t s s1 req e n hfirst] at h
      simp only [Option.some.injEq, Prod.mk.injEq] at h
      obtain ⟨-, -, rfl⟩ := h
      simp [issued, hfirst]
    | fulfilled r1 =>
      by_cases h401 : r1.status = 401
      · rcases hprobe : t s1 TEMP_API_200 with ⟨o2, s2⟩
        cases o2 with
        | rejected e =>
          rw [fetch_probe_rejected t s s1 s2 req r1 e n hfirst h401 hprobe] at h
          simp only [Option.some.injEq, Prod.mk.injEq] at h
          obtain ⟨-, -, rfl⟩ := h
          simp [issued, hfirst, h401, hprobe]
        | fulfilled r2 =>
          by_cases h2 : r2.status = 401
          · rw [fetch_probe_401 t s s1 s2 req r1 r2 n hfirst h401 hprobe h2] at h
            simp only [Option.some.injEq, Prod.mk.injEq] at h
            obtain ⟨-, -, rfl⟩ := h
            simp [issued, hfirst, h401, hprobe, h2]
          · rw [fetch_probe_other t s s1 s2 req r1 r2 n hfirst h401 hprobe h2] at h
            cases hn : fetch (platformFetch t) n s2 TEMP_API_200 with
            | none => simp [hn] at h
            | some x =>
              obtain ⟨o, s3, calls3⟩ := x
              simp only [hn, Option.map_some', Option.some.injEq, Prod.mk.injEq] at h
              obtain ⟨-, -, rfl⟩ := h
              simp [issued, hfirst, h401, hprobe, h2, ih s2 TEMP_API_200 o s3 calls3 hn]
      · by_cases h404 : r1.status = 404
        · rw [fetch_first_404 t s s1 req r1 n hfirst h404] at h
          cases hn : fetch (platformFetch t) n s1 TEMP_API_200 with
          | none => simp [hn] at h
          | some x =>
            obtain ⟨o, s2, calls2⟩ := x
            simp only [hn, Option.map_some', Option.some.injEq, Prod.mk.injEq] at h
            obtain ⟨-, -, rfl⟩ := h
            simp [issued, hfirst, h404, ih s1 TEMP_API_200 o s2 calls2 hn]
        · rw [fetch_first_other t s s1 req r1 n hfirst h401 h404] at h
          simp only [Option.some.injEq, Prod.mk.injEq] at h
          obtain ⟨-, -, rfl⟩ := h
          simp [issued, hfirst, h401, h404]

/-- C12: in a chain of the intercepted fetch over the platform transport, the first
transport call carries the original request and every later call carries the fixed
request `TEMP_API['200']`, whatever the original request and whether or not the chain
settles; so an original request other than `TEMP_API['200']` is never issued again. The
calls of a settled chain are exactly these issued calls. -/
theorem fetch_later_calls_target_fallback {σ : Type} (t : Transport σ) (s : σ)
    (req : Request) (fuel : Nat) :
    (∃ rest, issued t (fuel + 1) s req = ⟨req, (t s req).1⟩ :: rest
      ∧ (∀ c ∈ rest, c.request = TEMP_API_200)
      ∧ (req ≠ TEMP_API_200 → ∀ c ∈ rest, c.request ≠ req))
    ∧ ∀ (out : Settled FetchValue) (s' : σ) (calls : List Call),
        fetch (platformFetch t) (fuel + 1) s req = some (out, s', calls) →
        calls = issued t (fuel + 1) s req := by
  refine ⟨?_, issued_of_settled t (fuel + 1) s req⟩
  obtain ⟨rest, hrest, hall⟩ := issued_head t fuel s req
  refine ⟨rest, hrest, hall, ?_⟩
  intro hne c hc heq
  exact hne (heq ▸ hall c hc)

/-- Witness of C12: the chain of `/x` against the answers 401, 200, 404, 200 settles
with four calls, the last three to `TEMP_API['200']`. -/
theorem fetch_later_calls_target_fallback_witness :
    fetch (platformFetch scripted) 3 longScript reqX
      = some (.fulfilled (.response (stubResponse 200 "last")), [],
          [⟨reqX, .fulfilled (stubResponse 401 "first")⟩,
           ⟨TEMP_API_200, .fulfilled (stubResponse 200 "probe")⟩,
           ⟨TEMP_API_200, .fulfilled (stubResponse 404 "replay")⟩,
           ⟨TEMP_API_200, .fulfilled (stubResponse 200 "last")⟩])
    ∧ [(⟨reqX, .fulfilled (stubResponse 401 "first")⟩ : Call),
        ⟨TEMP_API_200, .fulfilled (stubResponse 200 "probe")⟩,
        ⟨TEMP_API_200, .fulfilled (stubResponse 404 "replay")⟩,
        ⟨TEMP_API_200, .fulfilled (stubResponse 200 "last")⟩]
      = issued scripted 3 longScript reqX
    ∧ ∃ rest, issued scripted 3 longScript reqX
        = ⟨reqX, (scripted longScript reqX).1⟩ :: rest
      ∧ (∀ c ∈ rest, c.request = TEMP_API_200)
      ∧ (reqX ≠ TEMP_API_200 → ∀ c ∈ rest, c.request ≠ reqX) :=
  ⟨rfl,
    (fetch_later_calls_target_fallback scripted longScript reqX 2).2 _ _ _ rfl,
    (fetch_later_calls_target_fallback scripted longScript reqX 2).1⟩

/-! ## `getData` -/

/-- C13: over the platform's `fetch`, `getData(uri)` issues exactly one transport call, a
GET to `http://localhost:8080` followed by `uri`, with the headers `Accept` and
`Content-Type` both `application/json`. When the transport fulfils the call, `getData` is
fulfilled with that response; when the transport rejects, `getData` is still fulfilled,
with `undefined`. -/
theorem getData_once {σ : Type} (t : Transport σ) (s : σ) (uri : String) :
    (∀ (r : Response) (s1 : σ),
      t s { url := "http://localhost:8080" ++ uri,
            args := { method := some "GET", credentials := none,
                      headers := [("Accept", "application/json"),
                                  ("Content-Type", "application/json")] } }
        = (.fulfilled r, s1) →
      getData (platformGlobals t) uri s
        = some (.fulfilled (some (.response r)), s1,
            [⟨{ url := "http://localhost:8080" ++ uri,
                args := { method := some "GET", credentials := none,
                          headers := [("Accept", "application/json"),
                                      ("Content-Type", "application/json")] } },
              .fulfilled r⟩]))
    ∧ (∀ (e : JSError) (s1 : σ),
      t s { url := "http://localhost:8080" ++ uri,
            args := { method := some "GET", credentials := none,
                      headers := [("Accept", "application/json"),
                                  ("Content-Type", "application/json")] } }
        = (.rejected e, s1) →
      getData (platformGlobals t) uri s
        = some (.fulfilled none, s1,
            [⟨{ url := "http://localhost:8080" ++ uri,
                args := { method := some "GET", credentials := none,
                          headers := [("Accept", "application/json"),
                                      ("Content-Type", "application/json")] } },
              .rejected e⟩])) := by
  constructor
  · intro r s1 h
    have h' : t s { url := apiBaseUrl ++ uri, args := settings } = (.fulfilled r, s1) := h
    simp only [getData, platformGlobals, platformFetch, h']
    rfl
  · intro e s1 h
    have h' : t s { url := apiBaseUrl ++ uri, args := settings } = (.rejected e, s1) := h
    simp only [getData, platformGlobals, platformFetch, h']
    rfl

/-- Witness of C13: `getData('/api/main/movies/')` against a transport that answers 200,
and against one that fails. -/
theorem getData_once_witness :
    getData (platformGlobals scripted) "/api/main/movies/"
        [.fulfilled (stubResponse 200 "OK")]
      = some (.fulfilled (some (.response (stubResponse 200 "OK"))), [],
          [⟨{ url := "http://localhost:8080/api/main/movies/",
              args := { method := some "GET", credentials := none,
                        headers := [("Accept", "application/json"),
                                    ("Content-Type", "application/json")] } },
            .fulfilled (stubResponse 200 "OK")⟩])
    ∧ getData (platformGlobals scripted) "/api/main/movies/" []
      = some (.fulfilled none, [],
          [⟨{ url := "http://localhost:8080/api/main/movies/",
              args := { method := some "GET", credentials := none,
                        headers := [("Accept", "application/json"),
                                    ("Content-Type", "application/json")] } },
            .rejected (.networkError "Failed to fetch")⟩]) :=
  ⟨(getData_once scripted [.fulfilled (stubResponse 200 "OK")] "/api/main/movies/").1
      (stubResponse 200 "OK") [] rfl,
    (getData_once scripted [] "/api/main/movies/").2
      (.networkError "Failed to fetch") [] rfl⟩

/-! ## `MovieGrid` -/

theorem movieGridEntry_of_value (item : JSVal) (index : Nat)
    (hitem : item ≠ .undefined ∧ item ≠ .null) :
    movieGridEntry item index
      = .ok (if ((resolvedMovie item).optGet "name").truthy = true
              ∧ ((resolvedMovie item).optGet "posterPath").truthy = true
          then .element "Movie" (.num index) [("movie", resolvedMovie item)] []
          else .value .null) := by
  have hget : item.get "movie" = .ok (item.prop "movie") := by
    cases item <;> first | rfl | exact absurd rfl hitem.1 | exact absurd rfl hitem.2
  simp only [movieGridEntry, hget, resolvedMovie]
  cases ((if (item.prop "movie").truthy = true then item.prop "movie" else item).optGet
      "name").truthy <;>
    cases ((if (item.prop "movie").truthy = true then item.prop "movie" else item).optGet
      "posterPath").truthy <;> simp

theorem mapFrom_movieGridEntry :
    ∀ (items : List JSVal) (k : Nat),
      (∀ item ∈ items, item ≠ .undefined ∧ item ≠ .null) →
      mapFrom movieGridEntry k items
        = .ok ((items.enumFrom k).map fun p =>
            if ((resolvedMovie p.2).optGet "name").truthy = true
                ∧ ((resolvedMovie p.2).optGet "posterPath").truthy = true
            then Node.element "Movie" (.num p.1) [("movie", resolvedMovie p.2)] []
            else Node.value .null) := by
  intro items
  induction items with
  | nil => intro k _; rfl
  | cons x xs ih =>
    intro k h
    have hx := h x (List.mem_cons_self x xs)
    have hxs : ∀ item ∈ xs, item ≠ .undefined ∧ item ≠ .null :=
      fun item hi => h item (List.mem_cons_of_mem x hi)
    simp only [mapFrom, movieGridEntry_of_value x k hx, ih (k + 1) hxs, List.enumFrom_cons,
      List.map_cons]

/-- C14, as stated, fails for a list that holds `null`: reading `item.movie` throws a
`TypeError` and nothing is rendered. -/
theorem MovieGrid_null_item_counterexample :
    MovieGrid (.arr [.obj [("name", .str "Alien"), ("posterPath", .str "/alien.jpg")],
        .null])
      = .error (.typeError "Cannot read properties of null") :=
  rfl

/-- C14, amended: for every list of items none of which is `undefined` or `null`,
`MovieGrid` renders one entry per item, in order: with the item resolved to `item.movie`
when that is truthy and to the item itself otherwise, the entry at index `i` is a `Movie`
element (key `i`, prop `movie` the resolved movie) when the resolved movie has a truthy
`name` and a truthy `posterPath`, and `null` otherwise. -/
theorem MovieGrid_entries (items : List JSVal)
    (hitems : ∀ item ∈ items, item ≠ .undefined ∧ item ≠ .null) :
    MovieGrid (.arr items)
      = .ok (.element "div" .undefined [("style", movieGridStyle)]
          [.list (items.enum.map fun p =>
            if ((resolvedMovie p.2).optGet "name").truthy = true
                ∧ ((resolvedMovie p.2).optGet "posterPath").truthy = true
            then Node.element "Movie" (.num p.1) [("movie", resolvedMovie p.2)] []
            else Node.value .null)]) := by
  simp only [MovieGrid, JSVal.callMap, mapFrom_movieGridEntry items 0 hitems, List.enum]

/-- Witness of C14, amended: a product whose `movie` has both fields, a movie reference
without a poster, and a bare movie reference. -/
theorem MovieGrid_entries_witness :
    (∀ item ∈ [JSVal.obj [("movie", .obj [("name", .str "Alien"),
                  ("posterPath", .str "/alien.jpg")])],
               JSVal.obj [("name", .str "Heat"), ("posterPath", .str "")],
               JSVal.obj [("name", .str "Ran"), ("posterPath", .str "/ran.jpg")]],
        item ≠ .undefined ∧ item ≠ .null)
    ∧ MovieGrid (.arr [.obj [("movie", .obj [("name", .str "Alien"),
                  ("posterPath", .str "/alien.jpg")])],
               .obj [("name", .str "Heat"), ("posterPath", .str "")],
               .obj [("name", .str "Ran"), ("posterPath", .str "/ran.jpg")]])
      = .ok (.element "div" .undefined [("style", movieGridStyle)]
          [.list [.element "Movie" (.num 0)
                    [("movie", .obj [("name", .str "Alien"),
                      ("posterPath", .str "/alien.jpg")])] [],
                  .value .null,
                  .element "Movie" (.num 2)
                    [("movie", .obj [("name", .str "Ran"),
                      ("posterPath", .str "/ran.jpg")])] []]]) :=
  ⟨by simp,
    MovieGrid_entries _ (by simp)⟩

/-! ## The values the intercepted `fetch` resolves to -/

theorem fetch_fulfilled_shape {σ : Type} (t : Transport σ) :
    ∀ (fuel : Nat) (s : σ) (req : Request) (v : FetchValue) (s' : σ) (calls : List Call),
      fetch (platformFetch t) fuel s req = some (.fulfilled v, s', calls) →
      (∃ pre q r, v = .response r ∧ r.status ≠ 401 ∧ r.status ≠ 404
          ∧ calls = pre ++ [⟨q, .fulfilled r⟩])
      ∨ (v = .empty ∧ ∃ pre q r1 r2, r1.status = 401 ∧ r2.status = 401
          ∧ calls = pre ++ [⟨q, .fulfilled r1⟩, ⟨TEMP_API_200, .fulfilled r2⟩]) := by
  intro fuel
  induction fuel with
  | zero => intro s req v s' calls h; simp [fetch] at h
  | succ n ih =>
    intro s req v s' calls h
    rcases hfirst : t s req with ⟨o1, s1⟩
    cases o1 with
    | rejected e =>
      rw [fetch_first_rejected t s s1 req e n hfirst] at h
      simp at h
    | fulfilled r1 =>
      by_cases h401 : r1.status = 401
      · rcases hprobe : t s1 TEMP_API_200 with ⟨o2, s2⟩
        cases o2 with
        | rejected e =>
          rw [fetch_probe_rejected t s s1 s2 req r1 e n hfirst h401 hprobe] at h
          simp at h
        | fulfilled r2 =>
          by_cases h2 : r2.status = 401
          · rw [fetch_probe_401 t s s1 s2 req r1 r2 n hfirst h401 hprobe h2] at h
            simp only [Option.some.injEq, Prod.mk.injEq, Settled.fulfilled.injEq] at h
            obtain ⟨rfl, -, rfl⟩ := h
            exact Or.inr ⟨rfl, [], req, r1, r2, h401, h2, rfl⟩
          · rw [fetch_probe_other t s s1 s2 req r1 r2 n hfirst h401 hprobe h2] at h
            cases hn : fetch (platformFetch t) n s2 TEMP_API_200 with
            | none => simp [hn] at h
            | some x =>
              obtain ⟨o, s3, calls3⟩ := x
              simp only [hn, Option.map_some', Option.some.injEq, Prod.mk.injEq] at h
              obtain ⟨rfl, -, rfl⟩ := h
              rcases ih s2 TEMP_API_200 v s3 calls3 hn with
                ⟨pre, q, r, hv, hr1, hr2, hc⟩ | ⟨hv, pre, q, ra, rb, ha, hb, hc⟩
              · exact Or.inl ⟨⟨req, .fulfilled r1⟩ :: ⟨TEMP_API_200, .fulfilled r2⟩ :: pre,
                  q, r, hv, hr1, hr2, by simp [hc]⟩
              · exact Or.inr ⟨hv,
                  ⟨req, .fulfilled r1⟩ :: ⟨TEMP_API_200, .fulfilled r2⟩ :: pre,
                  q, ra, rb, ha, hb, by simp [hc]⟩
      · by_cases h404 : r1.status = 404
        · rw [fetch_first_404 t s s1 req r1 n hfirst h404] at h
          cases hn : fetch (platformFetch t) n s1 TEMP_API_200 with
          | none => simp [hn] at h
          | some x =>
            obtain ⟨o, s2, calls2⟩ := x
            simp only [hn, Option.map_some', Option.some.injEq, Prod.mk.injEq] at h
            obtain ⟨rfl, -, rfl⟩ := h
            rcases ih s1 TEMP_API_200 v s2 calls2 hn with
              ⟨pre, q, r, hv, hr1, hr2, hc⟩ | ⟨hv, pre, q, ra, rb, ha, hb, hc⟩
            · exact Or.inl ⟨⟨req, .fulfilled r1⟩ :: pre, q, r, hv, hr1, hr2, by simp [hc]⟩
            · exact Or.inr ⟨hv, ⟨req, .fulfilled r1⟩ :: pre, q, ra, rb, ha, hb,
                by simp [hc]⟩
        · rw [fetch_first_other t s s1 req r1 n hfirst h401 h404] at h
          simp only [Option.some.injEq, Prod.mk.injEq, Settled.fulfilled.injEq] at h
          obtain ⟨rfl, -, rfl⟩ := h
          exact Or.inl ⟨[], req, r1, rfl, h401, h404, rfl⟩

/-- C15: whenever the intercepted fetch over the platform transport is fulfilled, its
value is either a response that the transport delivered in the last call of the chain
and whose status is neither 401 nor 404, or the empty object; and it is the empty object
only when the chain ended with a 401 response followed by a re-authentication call to
`TEMP_API['200']` that was answered 401 too. -/
theorem fetch_resolved_value {σ : Type} (t : Transport σ) (fuel : Nat) (s s' : σ)
    (req : Request) (v : FetchValue) (calls : List Call)
    (hresolved : fetch (platformFetch t) fuel s req = some (.fulfilled v, s', calls)) :
    (∃ pre q r, v = .response r ∧ r.status ≠ 401 ∧ r.status ≠ 404
        ∧ calls = pre ++ [⟨q, .fulfilled r⟩])
    ∨ (v = .empty ∧ ∃ pre q r1 r2, r1.status = 401 ∧ r2.status = 401
        ∧ calls = pre ++ [⟨q, .fulfilled r1⟩, ⟨TEMP_API_200, .fulfilled r2⟩]) :=
  fetch_fulfilled_shape t fuel s req v s' calls hresolved

/-- Witness of C15: the chain of `/x` against the answers 404, 401, 401, which ends with
the empty object. -/
theorem fetch_resolved_value_witness :
    fetch (platformFetch scripted) 2
        [.fulfilled (stubResponse 404), .fulfilled (stubResponse 401 "replay"),
          .fulfilled (stubResponse 401 "probe")] reqX
      = some (.fulfilled .empty, [],
          [⟨reqX, .fulfilled (stubResponse 404)⟩,
           ⟨TEMP_API_200, .fulfilled (stubResponse 401 "replay")⟩,
           ⟨TEMP_API_200, .fulfilled (stubResponse 401 "probe")⟩])
    ∧ ((∃ pre q r, FetchValue.empty = .response r ∧ r.status ≠ 401 ∧ r.status ≠ 404
          ∧ [(⟨reqX, .fulfilled (stubResponse 404)⟩ : Call),
              ⟨TEMP_API_200, .fulfilled (stubResponse 401 "replay")⟩,
              ⟨TEMP_API_200, .fulfilled (stubResponse 401 "probe")⟩]
            = pre ++ [⟨q, .fulfilled r⟩])
      ∨ (FetchValue.empty = .empty ∧ ∃ pre q r1 r2, r1.status = 401 ∧ r2.status = 401
          ∧ [(⟨reqX, .fulfilled (stubResponse 404)⟩ : Call),
              ⟨TEMP_API_200, .fulfilled (stubResponse 401 "replay")⟩,
              ⟨TEMP_API_200, .fulfilled (stubResponse 401 "probe")⟩]
            = pre ++ [⟨q, .fulfilled r1⟩, ⟨TEMP_API_200, .fulfilled r2⟩])) :=
  ⟨rfl,
    fetch_resolved_value scripted 2
      [.fulfilled (stubResponse 404), .fulfilled (stubResponse 401 "replay"),
        .fulfilled (stubResponse 401 "probe")] [] reqX .empty _ rfl⟩

/-! ## Deterministic transports -/

/-- C16: over a transport without state whose answer depends on the request alone and
which answers `TEMP_API['200']` with a status other than 401 and 404, the chain of a
request that gets a response settles, for every fuel from 2 on, after one call with the
original response when its status is neither 401 nor 404, after two calls with the
fallback's response when it is 404, and after three calls with the fallback's response
when it is 401; so never after more than three calls. -/
theorem fetch_deterministic (f : Request → Settled Response) (req : Request)
    (r rfb : Response) (fuel : Nat)
    (hfirst : f req = .fulfilled r) (hfb : f TEMP_API_200 = .fulfilled rfb)
    (hfb401 : rfb.status ≠ 401) (hfb404 : rfb.status ≠ 404) :
    (r.status ≠ 401 → r.status ≠ 404 →
      fetch (platformFetch (deterministic f)) (fuel + 2) () req
        = some (.fulfilled (.response r), (), [⟨req, .fulfilled r⟩]))
    ∧ (r.status = 404 →
      fetch (platformFetch (deterministic f)) (fuel + 2) () req
        = some (.fulfilled (.response rfb), (),
            [⟨req, .fulfilled r⟩, ⟨TEMP_API_200, .fulfilled rfb⟩]))
    ∧ (r.status = 401 →
      fetch (platformFetch (deterministic f)) (fuel + 2) () req
        = some (.fulfilled (.response rfb), (),
            [⟨req, .fulfilled r⟩, ⟨TEMP_API_200, .fulfilled rfb⟩,
             ⟨TEMP_API_200, .fulfilled rfb⟩]))
    ∧ ∃ out calls, fetch (platformFetch (deterministic f)) (fuel + 2) () req
        = some (out, (), calls) ∧ calls.length ≤ 3 := by
  have h1 : deterministic f () req = (.fulfilled r, ()) := by simp [deterministic, hfirst]
  have h2 : deterministic f () TEMP_API_200 = (.fulfilled rfb, ()) := by
    simp [deterministic, hfb]
  have hother : r.status ≠ 401 → r.status ≠ 404 →
      fetch (platformFetch (deterministic f)) (fuel + 2) () req
        = some (.fulfilled (.response r), (), [⟨req, .fulfilled r⟩]) :=
    fun a b => fetch_first_other (deterministic f) () () req r (fuel + 1) h1 a b
  have h404 : r.status = 404 →
      fetch (platformFetch (deterministic f)) (fuel + 2) () req
        = some (.fulfilled (.response rfb), (),
            [⟨req, .fulfilled r⟩, ⟨TEMP_API_200, .fulfilled rfb⟩]) := by
    intro a
    rw [fetch_first_404 (deterministic f) () () req r (fuel + 1) h1 a,
      fetch_first_other (deterministic f) () () TEMP_API_200 rfb fuel h2 hfb401 hfb404]
    rfl
  have h401 : r.status = 401 →
      fetch (platformFetch (deterministic f)) (fuel + 2) () req
        = some (.fulfilled (.response rfb), (),
            [⟨req, .fulfilled r⟩, ⟨TEMP_API_200, .fulfilled rfb⟩,
             ⟨TEMP_API_200, .fulfilled rfb⟩]) := by
    intro a
    rw [fetch_probe_other (deterministic f) () () () req r rfb (fuel + 1) h1 a h2 hfb401,
      fetch_first_other (deterministic f) () () TEMP_API_200 rfb fuel h2 hfb401 hfb404]
    rfl
  refine ⟨hother, h404, h401, ?_⟩
  by_cases a : r.status = 401
  · exact ⟨_, _, h401 a, by simp⟩
  · by_cases b : r.status = 404
    · exact ⟨_, _, h404 b, by simp⟩
    · exact ⟨_, _, hother a b, by simp⟩

/-- Witness of C16: `/x` is answered 401 and every other URL 200, so the chain of `/x`
takes three calls. -/
theorem fetch_deterministic_witness :
    answerByUrl reqX = .fulfilled (stubResponse 401 "Unauthorized")
    ∧ answerByUrl TEMP_API_200 = .fulfilled (stubResponse 200 "OK")
    ∧ (stubResponse 200 "OK").status ≠ 401 ∧ (stubResponse 200 "OK").status ≠ 404
    ∧ (stubResponse 401 "Unauthorized").status = 401
    ∧ fetch (platformFetch (deterministic answerByUrl)) 2 () reqX
      = some (.fulfilled (.response (stubResponse 200 "OK")), (),
          [⟨reqX, .fulfilled (stubResponse 401 "Unauthorized")⟩,
           ⟨TEMP_API_200, .fulfilled (stubResponse 200 "OK")⟩,
           ⟨TEMP_API_200, .fulfilled (stubResponse 200 "OK")⟩]) :=
  ⟨rfl, rfl, by decide, by decide, rfl,
    (fetch_deterministic answerByUrl reqX (stubResponse 401 "Unauthorized")
      (stubResponse 200 "OK") 0 rfl rfl (by decide) (by decide)).2.2.1 rfl⟩

end MediaMarketplace
